import Mathlib

/-!
Shallow embedding of the ioBroker smarthome-alarm core (`src/src/main.ts`,
class `SmarthomeAlarm`).  The adapter's own object states and the in-memory
maps/sets of the class are modelled as fields of one record `AState`; sensor
and output configuration is the record `SystemCfg`.  External foreign states
(the raw sensor sources read via `getForeignStateAsync`) are a function
`Env : String → Option StateValue`.  Wall-clock ISO timestamps written to
`last.triggerTime` and event `time` fields are environment noise and are not
modelled; the event log is kept as a list (the code publishes the most recent
record in `events.last` plus the monotone counter `events.counter`).
-/

/-- The seven control modes (`CONTROL_MODE_VALUES` in main.ts). -/
inductive ControlMode
  | disarmed
  | arming
  | armed_full
  | armed_perimeter
  | entry_delay
  | alarm_pre
  | alarm_full
deriving DecidableEq, Repr

/-- String form of a control mode, matching the TS string literals. -/
def ControlMode.toStr : ControlMode → String
  | .disarmed => "disarmed"
  | .arming => "arming"
  | .armed_full => "armed_full"
  | .armed_perimeter => "armed_perimeter"
  | .entry_delay => "entry_delay"
  | .alarm_pre => "alarm_pre"
  | .alarm_full => "alarm_full"

/-- `CONTROL_MODE_VALUES.includes(v)` as a parse function. -/
def parseControlMode (v : String) : Option ControlMode :=
  if v = "disarmed" then some .disarmed
  else if v = "arming" then some .arming
  else if v = "armed_full" then some .armed_full
  else if v = "armed_perimeter" then some .armed_perimeter
  else if v = "entry_delay" then some .entry_delay
  else if v = "alarm_pre" then some .alarm_pre
  else if v = "alarm_full" then some .alarm_full
  else none

/-- Sensor policy (`SENSOR_POLICY_VALUES`). -/
inductive SensorPolicy
  | instant
  | silent
  | entryDelay
deriving DecidableEq, Repr

/-- Armed-mode mask entries (`SENSOR_MODE_MASK_VALUES`). -/
inductive SensorModeMask
  | perimeter
  | full
deriving DecidableEq, Repr

/-- An `ioBroker.StateValue` as far as the core inspects it: boolean, number,
string, or null/undefined (both collapsed into `.null`, exactly as
`normalizeSensorValue` treats them).  Numbers are modelled as integers; the
code only distinguishes 0, 1 and "anything else". -/
inductive StateValue
  | bool (b : Bool)
  | num (n : Int)
  | str (s : String)
  | null
deriving DecidableEq, Repr

/-- Event severities. -/
inductive EventSeverity
  | info
  | warning
  | alarm
deriving DecidableEq, Repr

/-- A sensor after configuration adaptation (`InternalSensor` in main.ts;
`prepareConfiguration` always sets `triggerValue := true`). -/
structure InternalSensor where
  stateId : String
  name : String
  invert : Bool
  debounceMs : Option Int
  bypassable : Bool
  policy : SensorPolicy
  modeMask : List SensorModeMask
  triggerValue : Bool
deriving DecidableEq, Repr

/-- An output after configuration adaptation (`InternalOutput` in main.ts).
`otype` is the `type` field ("siren" | "light" | "notification" | "custom"). -/
structure InternalOutput where
  stateId : String
  name : String
  otype : String
  activeValue : StateValue
  inactiveValue : StateValue
deriving DecidableEq, Repr

/-- The adapter configuration (`SmarthomeAlarmConfig`).  Delays are seconds as
configured and may be negative; `debounceMsDefault` is milliseconds. -/
structure AlarmConfig where
  exitDelaySec : Int
  entryDelaySec : Int
  chirpSec : Int
  preAlarmSec : Int
  alarmDurationSec : Int
  blockArmingIfOpen : Bool
  autoBypassOpenOnArming : Bool
  useBaselineSnapshot : Bool
  debounceMsDefault : Int
deriving DecidableEq, Repr

/-- Configuration plus the adapted sensor registry (`sensorsByStateId`, in
registration order) and output list (`configuredOutputs`). -/
structure SystemCfg where
  cfg : AlarmConfig
  sensors : List InternalSensor
  outputs : List InternalOutput
deriving DecidableEq, Repr

/-- An event record as built by `emitEvent` (the wall-clock `time` field is
not modelled). -/
structure EventRecord where
  etype : String
  mode : ControlMode
  sensorId : Option String
  sensorName : Option String
  severity : EventSeverity
  message : String
deriving DecidableEq, Repr

/-- One merged runtime state: the adapter's own object states
(`control.mode`, `alarm.*`, `timers.*`, `arming.*`, `trouble.*`, `last.*`,
`events.*`, chirp indicators) together with the private fields of the
`SmarthomeAlarm` class (maps, sets, timer handles).  Pending timers are
modelled by what their callback needs: the exit timeout stores the target
mode of the scheduled `finishArming`, entry/pre-alarm timeouts store the
sensor handed to the scheduled `triggerAlarm` / `startFullAlarm`. -/
structure AState where
  mode : ControlMode
  exitRemaining : Nat
  entryRemaining : Nat
  alarmActive : Bool
  outputsActive : Bool
  silenced : Bool
  silentEvent : Nat
  lastTriggerSensor : String
  lastReason : String
  troubleSensors : List String
  troubleActive : Bool
  openList : List String
  bypassedList : List String
  stateList : List (String × String × Option Bool)
  lastEventTimestamp : List (String × Nat)
  lastSensorValue : List (String × Bool)
  baselineSnapshot : List (String × Bool)
  armingStateSnapshot : List (String × Bool)
  runtimeBypass : List String
  lastOutputValues : List (String × StateValue)
  events : List EventRecord
  eventsCounter : Nat
  exitTimeout : Option ControlMode
  exitInterval : Bool
  entryTimeout : Option InternalSensor
  entryInterval : Bool
  preAlarmTimeout : Option InternalSensor
  alarmDurationTimeout : Bool
  silentEventTimeout : Bool
  entryChirp : Bool
  leaveChirp : Bool
  postAlarmChirp : Bool
  entryChirpTimeout : Bool
  leaveChirpTimeout : Bool
  postAlarmChirpTimeout : Bool
deriving DecidableEq, Repr

/-- Foreign sensor sources: `getForeignStateAsync` returning a state with a
value, or nothing. -/
def Env : Type := String → Option StateValue

/-- Association-list update with JS `Map.set` semantics. -/
def assocSet {α : Type} (l : List (String × α)) (k : String) (v : α) : List (String × α) :=
  if l.any (fun p => p.1 = k) then
    l.map (fun p => if p.1 = k then (k, v) else p)
  else
    l ++ [(k, v)]

/-- Association-list lookup with JS `Map.get` semantics. -/
def assocGet {α : Type} (l : List (String × α)) (k : String) : Option α :=
  (l.find? (fun p => p.1 = k)).map (fun p => p.2)

/-- `Map.get` on the sensor registry.  `initializeSensors` fills the map in
list order with `set`, so on a duplicate `stateId` the last entry wins. -/
def lookupSensor : List InternalSensor → String → Option InternalSensor
  | [], _ => none
  | sn :: rest, id =>
    match lookupSensor rest id with
    | some found => some found
    | none => if sn.stateId = id then some sn else none

/-- `Math.max(0, x || 0)`, the clamp applied to every configured delay at its
use sites (exit, entry, pre-alarm, alarm duration, chirp). -/
def clampSec (x : Int) : Nat := (max 0 x).toNat

/-- `normalizeSensorValue` (main.ts lines 1064-1097): accept booleans, the
numbers 0/1, and the strings "true"/"false" after trim + lowercase; apply the
sensor's invert flag only after acceptance; everything else (including
null/undefined) is unreadable (`none`).  Pure and total by construction. -/
def normalizeSensorValue (value : StateValue) (sensor : InternalSensor) : Option Bool :=
  match value with
  | .null => none
  | .bool b => some (if sensor.invert then !b else b)
  | .num n =>
    if n = 0 || n = 1 then some (if sensor.invert then !(decide (n = 1)) else decide (n = 1))
    else none
  | .str s =>
    let lowered := s.trim.toLower
    if lowered = "true" then some (if sensor.invert then !true else true)
    else if lowered = "false" then some (if sensor.invert then !false else false)
    else none

/-- Reference function written from the specification's words for §4.1:
accepted raw forms are boolean, numeric 0/1, case-insensitively trimmed
"true"/"false" strings; the invert flag flips the canonical result after
acceptance; absent/null values are unreadable. -/
def specNormalize (value : StateValue) (invert : Bool) : Option Bool :=
  let accepted : Option Bool :=
    match value with
    | .null => none
    | .bool b => some b
    | .num n => if n = 1 then some true else if n = 0 then some false else none
    | .str s =>
      if s.trim.toLower = "true" then some true
      else if s.trim.toLower = "false" then some false
      else none
  accepted.map (fun b => if invert then !b else b)

/-- `emitEvent`: publish the record as `events.last` (here: cons onto the
log) and bump the monotone counter. -/
def emitEvent (s : AState) (e : EventRecord) : AState :=
  { s with events := e :: s.events, eventsCounter := s.eventsCounter + 1 }

/-- `sensor?.name || sensor?.stateId || ""` / `name || stateId` fallbacks. -/
def sensorDisplayName (sensor : InternalSensor) : String :=
  if sensor.name = "" then sensor.stateId else sensor.name

/-- `updateLastEvent` (the ISO timestamp written to `last.triggerTime` is not
modelled): record the trigger sensor and the `reason[:mode]` string. -/
def updateLastEvent (s : AState) (reason : String) (sensor : Option InternalSensor)
    (mode : Option ControlMode) : AState :=
  { s with
    lastTriggerSensor := match sensor with
      | some sn => sensorDisplayName sn
      | none => ""
    lastReason := match mode with
      | some m => reason ++ ":" ++ m.toStr
      | none => reason }

/-- `getSensorName`. -/
def getSensorName (scfg : SystemCfg) (sensorId : String) : String :=
  match lookupSensor scfg.sensors sensorId with
  | some sn => sensorDisplayName sn
  | none => sensorId

/-- `updateTroubleStates`: republish the list and recompute the aggregate
`trouble.active` flag. -/
def updateTroubleStates (s : AState) : AState :=
  { s with troubleActive := !s.troubleSensors.isEmpty }

/-- `addTroubleSensor`: no-op when already marked, otherwise add, recompute
the aggregate flag, and emit `trouble_added` (warning). -/
def addTroubleSensor (scfg : SystemCfg) (s : AState) (sensorId : String) : AState :=
  if sensorId ∈ s.troubleSensors then s
  else
    let s1 := updateTroubleStates { s with troubleSensors := s.troubleSensors ++ [sensorId] }
    emitEvent s1
      { etype := "trouble_added"
        mode := s1.mode
        sensorId := some sensorId
        sensorName := some (getSensorName scfg sensorId)
        severity := .warning
        message := "Trouble detected (" ++ getSensorName scfg sensorId ++ ")" }

/-- `removeTroubleSensor`: only on actual removal recompute the flag and emit
`trouble_removed` (info). -/
def removeTroubleSensor (scfg : SystemCfg) (s : AState) (sensorId : String) : AState :=
  if sensorId ∈ s.troubleSensors then
    let s1 := updateTroubleStates
      { s with troubleSensors := s.troubleSensors.filter (fun x => x ≠ sensorId) }
    emitEvent s1
      { etype := "trouble_removed"
        mode := s1.mode
        sensorId := some sensorId
        sensorName := some (getSensorName scfg sensorId)
        severity := .info
        message := "Trouble cleared (" ++ getSensorName scfg sensorId ++ ")" }
  else s

/-- `clearExitTimers`. -/
def clearExitTimers (s : AState) : AState :=
  { s with exitTimeout := none, exitInterval := false }

/-- `clearEntryTimers`. -/
def clearEntryTimers (s : AState) : AState :=
  { s with entryTimeout := none, entryInterval := false }

/-- `clearPreAlarmTimer`. -/
def clearPreAlarmTimer (s : AState) : AState :=
  { s with preAlarmTimeout := none }

/-- `clearAlarmDurationTimer`. -/
def clearAlarmDurationTimer (s : AState) : AState :=
  { s with alarmDurationTimeout := false }

/-- `clearSilentEventTimer`. -/
def clearSilentEventTimer (s : AState) : AState :=
  { s with silentEventTimeout := false }

/-- `stopChirpState` specialised to `outputs.entryChirp`. -/
def stopEntryChirp (s : AState) : AState :=
  { s with entryChirpTimeout := false, entryChirp := false }

/-- `stopChirpState` specialised to `outputs.leaveChirp`. -/
def stopLeaveChirp (s : AState) : AState :=
  { s with leaveChirpTimeout := false, leaveChirp := false }

/-- `stopChirpState` specialised to `outputs.postAlarmChirp`. -/
def stopPostAlarmChirp (s : AState) : AState :=
  { s with postAlarmChirpTimeout := false, postAlarmChirp := false }

/-- `startChirpState` specialised to `outputs.entryChirp`: stop, then with a
positive duration raise the indicator and schedule the clearing timeout. -/
def startEntryChirp (s : AState) (durationSec : Nat) : AState :=
  let s1 := stopEntryChirp s
  if durationSec = 0 then s1
  else { s1 with entryChirp := true, entryChirpTimeout := true }

/-- `startChirpState` specialised to `outputs.leaveChirp`. -/
def startLeaveChirp (s : AState) (durationSec : Nat) : AState :=
  let s1 := stopLeaveChirp s
  if durationSec = 0 then s1
  else { s1 with leaveChirp := true, leaveChirpTimeout := true }

/-- `startChirpState` specialised to `outputs.postAlarmChirp`. -/
def startPostAlarmChirp (s : AState) (durationSec : Nat) : AState :=
  let s1 := stopPostAlarmChirp s
  if durationSec = 0 then s1
  else { s1 with postAlarmChirp := true, postAlarmChirpTimeout := true }

/-- The per-output loop body of `updateOutputsForMode`: an output is active
exactly in `alarm_pre` / `alarm_full`, siren outputs honour the silence flag,
and each write is recorded in `lastOutputValues`. -/
def computeOutputTargets (scfg : SystemCfg) (mode : ControlMode) (silenced : Bool) :
    List (String × StateValue) :=
  scfg.outputs.foldl
    (fun acc output =>
      if output.stateId = "" then acc
      else
        let isActive := mode = ControlMode.alarm_pre ∨ mode = ControlMode.alarm_full
        let isMuted := isActive ∧ silenced = true ∧ output.otype = "siren"
        let targetValue := if isActive ∧ ¬ isMuted then output.activeValue else output.inactiveValue
        acc ++ [(output.stateId, targetValue)])
    []

/-- `updateOutputsForMode`: recompute and publish every output's target value
and the status snapshot. -/
def updateOutputsForMode (scfg : SystemCfg) (s : AState) (mode : ControlMode) : AState :=
  { s with lastOutputValues := computeOutputTargets scfg mode s.silenced }

/-- `setControlMode`: commit the mode (acknowledged write to `control.mode`)
and recompute the outputs. -/
def setControlMode (scfg : SystemCfg) (s : AState) (mode : ControlMode) : AState :=
  updateOutputsForMode scfg { s with mode := mode } mode

/-- `isSensorRelevantForMode`. -/
def isSensorRelevantForMode (sensor : InternalSensor) (targetMode : ControlMode) : Bool :=
  match targetMode with
  | .armed_perimeter => sensor.modeMask.contains .perimeter
  | .armed_full => sensor.modeMask.contains .full
  | _ => false

/-- The for-loop of `getOpenSensorsForMode`, threading the state (trouble
bookkeeping) and accumulating the open ids in registry order. -/
def openScanGo (scfg : SystemCfg) (env : Env) (targetMode : ControlMode) :
    List InternalSensor → AState → List String × AState
  | [], s => ([], s)
  | sensor :: rest, s =>
    if ¬ isSensorRelevantForMode sensor targetMode then
      openScanGo scfg env targetMode rest s
    else if sensor.stateId ∈ s.runtimeBypass then
      openScanGo scfg env targetMode rest s
    else
      match (env sensor.stateId).bind (fun v => normalizeSensorValue v sensor) with
      | none => openScanGo scfg env targetMode rest (addTroubleSensor scfg s sensor.stateId)
      | some b =>
        let s2 := removeTroubleSensor scfg s sensor.stateId
        let rec2 := openScanGo scfg env targetMode rest s2
        if b = sensor.triggerValue then (sensor.stateId :: rec2.1, rec2.2) else rec2

/-- `getOpenSensorsForMode`: every mode-relevant, non-bypassed sensor whose
current normalized value equals its trigger value; unreadable sensors are
marked trouble and excluded. -/
def getOpenSensorsForMode (scfg : SystemCfg) (env : Env) (s : AState)
    (targetMode : ControlMode) : List String × AState :=
  openScanGo scfg env targetMode scfg.sensors s

/-- Pure characterization of the open-sensor list: it depends only on the
registry, the foreign values and the runtime-bypass set. -/
def openSensorIdsFrom (scfg : SystemCfg) (env : Env) (targetMode : ControlMode)
    (rb : List String) : List InternalSensor → List String
  | [] => []
  | sensor :: rest =>
    if isSensorRelevantForMode sensor targetMode
        ∧ sensor.stateId ∉ rb
        ∧ (env sensor.stateId).bind (fun v => normalizeSensorValue v sensor)
            = some sensor.triggerValue then
      sensor.stateId :: openSensorIdsFrom scfg env targetMode rb rest
    else
      openSensorIdsFrom scfg env targetMode rb rest

/-- The open-sensor list of an arming attempt, as a pure function. -/
def openSensorIds (scfg : SystemCfg) (env : Env) (rb : List String)
    (targetMode : ControlMode) : List String :=
  openSensorIdsFrom scfg env targetMode rb scfg.sensors

/-- The for-loop of `captureBaselineSnapshot`. -/
def baselineScanGo (scfg : SystemCfg) (env : Env) :
    List InternalSensor → AState → AState
  | [], s => s
  | sensor :: rest, s =>
    match (env sensor.stateId).bind (fun v => normalizeSensorValue v sensor) with
    | none => baselineScanGo scfg env rest (addTroubleSensor scfg s sensor.stateId)
    | some b =>
      let s2 := removeTroubleSensor scfg s sensor.stateId
      baselineScanGo scfg env rest
        { s2 with baselineSnapshot := assocSet s2.baselineSnapshot sensor.stateId b }

/-- `captureBaselineSnapshot`: record the current normalized value of every
registered sensor (trouble for unreadable ones). -/
def captureBaselineSnapshot (scfg : SystemCfg) (env : Env) (s : AState) : AState :=
  baselineScanGo scfg env scfg.sensors s

/-- The for-loop of `captureArmingStateSnapshot`, also building the published
`arming.stateList` entries (id, name, normalized value or null). -/
def armingScanGo (scfg : SystemCfg) (env : Env) (targetMode : ControlMode) :
    List InternalSensor → AState → List (String × String × Option Bool) × AState
  | [], s => ([], s)
  | sensor :: rest, s =>
    if ¬ isSensorRelevantForMode sensor targetMode then
      armingScanGo scfg env targetMode rest s
    else if sensor.stateId ∈ s.runtimeBypass then
      armingScanGo scfg env targetMode rest s
    else
      match (env sensor.stateId).bind (fun v => normalizeSensorValue v sensor) with
      | none =>
        let rec2 := armingScanGo scfg env targetMode rest (addTroubleSensor scfg s sensor.stateId)
        ((sensor.stateId, sensor.name, none) :: rec2.1, rec2.2)
      | some b =>
        let s2 := removeTroubleSensor scfg s sensor.stateId
        let s3 := { s2 with armingStateSnapshot := assocSet s2.armingStateSnapshot sensor.stateId b }
        let rec2 := armingScanGo scfg env targetMode rest s3
        ((sensor.stateId, sensor.name, some b) :: rec2.1, rec2.2)

/-- `captureArmingStateSnapshot`: clear the snapshot, then record the value of
every mode-relevant non-bypassed sensor and publish `arming.stateList`. -/
def captureArmingStateSnapshot (scfg : SystemCfg) (env : Env) (s : AState)
    (targetMode : ControlMode) : AState :=
  let scan := armingScanGo scfg env targetMode scfg.sensors { s with armingStateSnapshot := [] }
  { scan.2 with stateList := scan.1 }

/-- `finishArming`: cancel exit timers, zero the countdown, capture the
optional baseline and the arming-state snapshot, commit the target mode and
emit `armed`. -/
def finishArming (scfg : SystemCfg) (env : Env) (s : AState) (targetMode : ControlMode) : AState :=
  let s1 := clearExitTimers s
  let s2 := { s1 with exitRemaining := 0 }
  let s3 := if scfg.cfg.useBaselineSnapshot then captureBaselineSnapshot scfg env s2 else s2
  let s4 := captureArmingStateSnapshot scfg env s3 targetMode
  let s5 := setControlMode scfg s4 targetMode
  let s6 := updateLastEvent s5 "armed" none (some targetMode)
  emitEvent s6
    { etype := "armed"
      mode := targetMode
      sensorId := none
      sensorName := none
      severity := .info
      message := "System armed (" ++ targetMode.toStr ++ ")" }

/-- `insertUnique`: JS `Set.add`. -/
def insertUnique (l : List String) (x : String) : List String :=
  if x ∈ l then l else l ++ [x]

/-- The auto-bypass loop body of `handleArm`: for an open sensor id that
resolves to a bypassable sensor, add it to the runtime-bypass set (first
component) and push it onto the bypassed list (second component). -/
def autoBypassStep (scfg : SystemCfg) (acc : List String × List String) (sid : String) :
    List String × List String :=
  match lookupSensor scfg.sensors sid with
  | some sn => if sn.bypassable then (insertUnique acc.1 sid, acc.2 ++ [sid]) else acc
  | none => acc

/-- The runtime-bypass set and bypassed list after the auto-bypass stage of
`handleArm` (lines 465-474): the loop runs only when sensors are open and
`autoBypassOpenOnArming` is set. -/
def armBypassPair (scfg : SystemCfg) (s2 : AState) (openSensors : List String) :
    List String × List String :=
  if 0 < openSensors.length ∧ scfg.cfg.autoBypassOpenOnArming then
    openSensors.foldl (autoBypassStep scfg) (s2.runtimeBypass, [])
  else (s2.runtimeBypass, [])

/-- The `arming_started` record emitted by `handleArm`. -/
def armingStartedEvent (targetMode : ControlMode) : EventRecord :=
  { etype := "arming_started", mode := .arming, sensorId := none, sensorName := none,
    severity := .info, message := "Arming started (" ++ targetMode.toStr ++ ")" }

/-- `handleArm` lines 465-503: the non-blocked tail of an arm request —
auto-bypass stage, publish the bypassed list, commit `arming`, emit
`arming_started`, then finalize immediately on a zero exit delay or start the
countdown and completion timer. -/
def armProceed (scfg : SystemCfg) (env : Env) (s2 : AState) (openSensors : List String)
    (targetMode : ControlMode) : AState :=
  let delaySec := clampSec scfg.cfg.exitDelaySec
  let bypassPair := armBypassPair scfg s2 openSensors
  let s3 := { s2 with runtimeBypass := bypassPair.1, bypassedList := bypassPair.2 }
  let s4 := clearExitTimers s3
  let s5 := setControlMode scfg s4 .arming
  let s6 := emitEvent s5 (armingStartedEvent targetMode)
  if delaySec = 0 then finishArming scfg env s6 targetMode
  else
    { s6 with exitRemaining := delaySec, exitInterval := true, exitTimeout := some targetMode }

/-- `handleArm` (main.ts lines 436-503). -/
def handleArm (scfg : SystemCfg) (env : Env) (s : AState) (targetMode : ControlMode) : AState :=
  let s1 := clearSilentEventTimer (clearAlarmDurationTimer (clearPreAlarmTimer
    (clearEntryTimers (clearExitTimers s))))
  let scan := getOpenSensorsForMode scfg env s1 targetMode
  let openSensors := scan.1
  let s2 := { scan.2 with openList := openSensors, stateList := [] }
  if 0 < openSensors.length ∧ scfg.cfg.blockArmingIfOpen then
    let s3 := setControlMode scfg s2 .disarmed
    let s4 := updateLastEvent s3 "arming_blocked_open" none none
    let s5 := emitEvent s4
      { etype := "arming_blocked"
        mode := .disarmed
        sensorId := none
        sensorName := none
        severity := .warning
        message := "Arming blocked: open sensors (" ++ toString openSensors.length ++ ")" }
    { s5 with bypassedList := [] }
  else
    armProceed scfg env s2 openSensors targetMode

/-- `handleDisarm` (main.ts lines 523-559). -/
def handleDisarm (scfg : SystemCfg) (s : AState) : AState :=
  let hadAlarm := s.alarmActive
  let s1 := clearSilentEventTimer (clearAlarmDurationTimer (clearPreAlarmTimer
    (clearEntryTimers (clearExitTimers s))))
  let s2 := stopLeaveChirp (stopEntryChirp s1)
  let s3 := setControlMode scfg s2 .disarmed
  let s4 := { s3 with
    exitRemaining := 0
    entryRemaining := 0
    alarmActive := false
    outputsActive := false
    silenced := false
    silentEvent := 0
    runtimeBypass := []
    baselineSnapshot := []
    armingStateSnapshot := []
    openList := []
    bypassedList := []
    stateList := [] }
  let s5 := updateLastEvent s4 "disarmed" none none
  let s6 := emitEvent s5
    { etype := "disarmed"
      mode := .disarmed
      sensorId := none
      sensorName := none
      severity := .info
      message := "System disarmed" }
  if hadAlarm then startPostAlarmChirp s6 (clampSec scfg.cfg.chirpSec)
  else stopPostAlarmChirp s6

/-- `handleSilentEvent` (main.ts lines 1307-1325): no mode change; record the
trigger, emit `silent_event` (info), raise `alarm.active` and increment the
`alarm.silentEvent` counter. -/
def handleSilentEvent (scfg : SystemCfg) (s : AState) (sensor : InternalSensor)
    (reason : String) : AState :=
  let mode := s.mode
  let s1 := updateLastEvent s reason (some sensor) none
  let s2 := emitEvent s1
    { etype := "silent_event"
      mode := mode
      sensorId := some sensor.stateId
      sensorName := some sensor.name
      severity := .info
      message := "Silent event (" ++ sensorDisplayName sensor ++ ")" }
  let s3 := { s2 with alarmActive := true }
  { s3 with silentEvent := s3.silentEvent + 1 }

/-- `startFullAlarm` (main.ts lines 1279-1305): commit `alarm_full`, set the
alarm-active and outputs-active flags, emit `alarm_full_started` (alarm), and
with a positive clamped duration schedule the outputs-silencing timer. -/
def startFullAlarm (scfg : SystemCfg) (s : AState) (sensor : InternalSensor)
    (reason : String) : AState :=
  let s1 := clearAlarmDurationTimer (clearPreAlarmTimer s)
  let s2 := setControlMode scfg s1 .alarm_full
  let s3 := { s2 with alarmActive := true, outputsActive := true }
  let s4 := updateLastEvent s3 reason (some sensor) (some .alarm_full)
  let s5 := emitEvent s4
    { etype := "alarm_full_started"
      mode := .alarm_full
      sensorId := some sensor.stateId
      sensorName := some sensor.name
      severity := .alarm
      message := "Full alarm started (" ++ sensorDisplayName sensor ++ ")" }
  if 0 < clampSec scfg.cfg.alarmDurationSec then { s5 with alarmDurationTimeout := true }
  else s5

/-- The body of the alarm-duration `setTimeout` callback in `startFullAlarm`:
it only writes `alarm.outputsActive := false` and nothing else (in particular
it neither changes the mode nor recomputes the outputs). -/
def alarmDurationElapsed (s : AState) : AState :=
  { s with outputsActive := false }

/-- `startPreAlarm` (main.ts lines 1255-1277). -/
def startPreAlarm (scfg : SystemCfg) (s : AState) (sensor : InternalSensor)
    (reason : String) : AState :=
  let s1 := clearPreAlarmTimer s
  let s2 := setControlMode scfg s1 .alarm_pre
  let s3 := { s2 with alarmActive := true }
  let s4 := updateLastEvent s3 reason (some sensor) (some .alarm_pre)
  let s5 := emitEvent s4
    { etype := "alarm_pre_started"
      mode := .alarm_pre
      sensorId := some sensor.stateId
      sensorName := some sensor.name
      severity := .warning
      message := "Pre-alarm started (" ++ sensorDisplayName sensor ++ ")" }
  { s5 with preAlarmTimeout := some sensor }

/-- `triggerAlarm` (main.ts lines 1238-1253): cancel entry timers; positive
pre-alarm duration enters pre-alarm, otherwise straight to full alarm. -/
def triggerAlarm (scfg : SystemCfg) (s : AState) (sensor : InternalSensor)
    (reason : String) : AState :=
  let s1 := clearEntryTimers s
  let s2 := { s1 with entryRemaining := 0 }
  if 0 < scfg.cfg.preAlarmSec then startPreAlarm scfg s2 sensor reason
  else startFullAlarm scfg s2 sensor reason

/-- `startEntryDelay` (main.ts lines 1200-1236). -/
def startEntryDelay (scfg : SystemCfg) (s : AState) (sensor : InternalSensor) : AState :=
  let delaySec := clampSec scfg.cfg.entryDelaySec
  let s1 := startEntryChirp s delaySec
  let s2 := startLeaveChirp s1 (clampSec scfg.cfg.exitDelaySec)
  let s3 := clearEntryTimers s2
  let s4 := setControlMode scfg s3 .entry_delay
  let s5 := updateLastEvent s4 "entry_delay" (some sensor) none
  let s6 := emitEvent s5
    { etype := "entry_delay_started"
      mode := .entry_delay
      sensorId := some sensor.stateId
      sensorName := some sensor.name
      severity := .info
      message := "Entry delay started (" ++ sensorDisplayName sensor ++ ")" }
  if delaySec = 0 then triggerAlarm scfg s6 sensor "entry_delay_elapsed"
  else
    { s6 with entryRemaining := delaySec, entryInterval := true, entryTimeout := some sensor }

/-- `handleStateChangeTrigger` (main.ts lines 1327-1348). -/
def handleStateChangeTrigger (scfg : SystemCfg) (s : AState) (sensor : InternalSensor)
    (mode : ControlMode) : AState :=
  if sensor.policy = .silent then handleSilentEvent scfg s sensor "state_change"
  else if mode = .alarm_pre ∨ mode = .alarm_full then
    updateLastEvent s "state_change" (some sensor) (some mode)
  else if sensor.policy = .entryDelay then startEntryDelay scfg s sensor
  else triggerAlarm scfg s sensor "state_change"

/-- `handleSensorTrigger` (main.ts lines 1160-1198): mode-dependent dispatch
of a rising-edge trigger. -/
def handleSensorTrigger (scfg : SystemCfg) (s : AState) (sensor : InternalSensor)
    (mode : ControlMode) : AState :=
  if sensor.policy = .silent then handleSilentEvent scfg s sensor "silent_trigger"
  else if mode = .arming ∨ mode = .disarmed then s
  else if mode = .armed_perimeter ∧ ¬ sensor.modeMask.contains .perimeter then s
  else if mode = .entry_delay then
    if sensor.policy = .instant then triggerAlarm scfg s sensor "instant_during_entry" else s
  else if mode = .alarm_pre ∨ mode = .alarm_full then
    updateLastEvent s "alarm_triggered" (some sensor) (some mode)
  else if sensor.policy = .entryDelay then startEntryDelay scfg s sensor
  else if sensor.policy = .instant then triggerAlarm scfg s sensor "instant_trigger"
  else s

/-- Effective debounce: `sensor.debounceMs ?? config.debounceMsDefault ?? 0`. -/
def effectiveDebounce (scfg : SystemCfg) (sensor : InternalSensor) : Int :=
  sensor.debounceMs.getD scfg.cfg.debounceMsDefault

/-- Main.ts lines 1007-1035: the part of `handleSensorChange` after trouble
handling and the baseline check — runtime-bypass filter, last-value update,
arming-state-change detection and rising-edge detection. -/
def sensorDispatch (scfg : SystemCfg) (s : AState) (sensor : InternalSensor)
    (id : String) (normalized : Bool) : AState :=
  if id ∈ s.runtimeBypass then s
  else
    let previousValue := assocGet s.lastSensorValue id
    let s1 := { s with lastSensorValue := assocSet s.lastSensorValue id normalized }
    let currentMode := s1.mode
    let stateSnapshotValue := assocGet s1.armingStateSnapshot id
    if (currentMode = .armed_full ∨ currentMode = .armed_perimeter)
        ∧ isSensorRelevantForMode sensor currentMode
        ∧ stateSnapshotValue.isSome
        ∧ stateSnapshotValue ≠ some normalized then
      handleStateChangeTrigger scfg s1 sensor currentMode
    else if previousValue = none then s1
    else if previousValue = some normalized then s1
    else if normalized ≠ sensor.triggerValue then s1
    else handleSensorTrigger scfg s1 sensor currentMode

/-- `handleSensorChange` (main.ts lines 967-1036): debounce, normalize (with
trouble on unreadable), record the event time, clear trouble, baseline
tolerance, then `sensorDispatch`.  `now` is `Date.now()` in milliseconds. -/
def handleSensorChange (scfg : SystemCfg) (s : AState) (id : String) (raw : StateValue)
    (now : Nat) : AState :=
  match lookupSensor scfg.sensors id with
  | none => s
  | some sensor =>
    let debounceMs := effectiveDebounce scfg sensor
    let lastTimestamp : Int := ((assocGet s.lastEventTimestamp id).getD 0 : Nat)
    if 0 < debounceMs ∧ (now : Int) - lastTimestamp < debounceMs then s
    else
      match normalizeSensorValue raw sensor with
      | none => addTroubleSensor scfg s id
      | some normalized =>
        let s1 := { s with lastEventTimestamp := assocSet s.lastEventTimestamp id now }
        let s2 := removeTroubleSensor scfg s1 id
        if scfg.cfg.useBaselineSnapshot
            ∧ (s2.mode = .armed_full ∨ s2.mode = .armed_perimeter) then
          match assocGet s2.baselineSnapshot id with
          | none => { s2 with baselineSnapshot := assocSet s2.baselineSnapshot id normalized }
          | some b =>
            if b = normalized then s2
            else sensorDispatch scfg s2 sensor id normalized
        else sensorDispatch scfg s2 sensor id normalized

/-- The `control.mode` branch of `onStateChange` (main.ts lines 418-427), for
an unacknowledged string write: "disarmed" routes to `handleDisarm`, other
valid mode strings are committed directly via `setControlMode`, everything
else is rejected with only a warning log. -/
def handleControlModeInput (scfg : SystemCfg) (s : AState) (v : String) : AState :=
  if v = "disarmed" then handleDisarm scfg s
  else
    match parseControlMode v with
    | some m => setControlMode scfg s m
    | none => s

/-- The only load-time warning about a negative configured delay
(`onReady`, main.ts lines 377-379): it covers `exitDelaySec` alone; negative
entry/pre-alarm/alarm-duration/chirp values are clamped silently at their use
sites. -/
def negativeDelayWarnings (cfg : AlarmConfig) : List String :=
  if cfg.exitDelaySec < 0 then ["exitDelaySec is negative; forcing to 0"] else []

/-- Events that only report trouble-set membership changes. -/
def troubleOnly (evs : List EventRecord) : Prop :=
  ∀ e ∈ evs, e.etype = "trouble_added" ∨ e.etype = "trouble_removed"

/-- What any of the foreign-value scans (`getOpenSensorsForMode`,
`captureBaselineSnapshot`, `captureArmingStateSnapshot`) may do to the state:
only trouble bookkeeping, snapshots and the published lists change; the mode,
timers, flags, bypass set and the per-sensor runtime maps are untouched, and
every event appended is a trouble event. -/
structure ScanPreserves (s r : AState) : Prop where
  rb : r.runtimeBypass = s.runtimeBypass
  mode : r.mode = s.mode
  exitT : r.exitTimeout = s.exitTimeout
  exitI : r.exitInterval = s.exitInterval
  entryT : r.entryTimeout = s.entryTimeout
  entryI : r.entryInterval = s.entryInterval
  preT : r.preAlarmTimeout = s.preAlarmTimeout
  durT : r.alarmDurationTimeout = s.alarmDurationTimeout
  alarmA : r.alarmActive = s.alarmActive
  outA : r.outputsActive = s.outputsActive
  sil : r.silenced = s.silenced
  silev : r.silentEvent = s.silentEvent
  byl : r.bypassedList = s.bypassedList
  lsv : r.lastSensorValue = s.lastSensorValue
  letm : r.lastEventTimestamp = s.lastEventTimestamp
  events : ∃ evs, r.events = evs ++ s.events ∧ troubleOnly evs


-- Concrete fixtures used by witness and counterexample theorems.

/-- All-zero configuration, every feature flag off. -/
def cfgZero : AlarmConfig :=
  { exitDelaySec := 0, entryDelaySec := 0, chirpSec := 0, preAlarmSec := 0,
    alarmDurationSec := 0, blockArmingIfOpen := false, autoBypassOpenOnArming := false,
    useBaselineSnapshot := false, debounceMsDefault := 0 }

/-- The initial runtime state (`onReady` defaults). -/
def initialState : AState :=
  { mode := .disarmed, exitRemaining := 0, entryRemaining := 0, alarmActive := false,
    outputsActive := false, silenced := false, silentEvent := 0, lastTriggerSensor := "",
    lastReason := "", troubleSensors := [], troubleActive := false, openList := [],
    bypassedList := [], stateList := [], lastEventTimestamp := [], lastSensorValue := [],
    baselineSnapshot := [], armingStateSnapshot := [], runtimeBypass := [],
    lastOutputValues := [], events := [], eventsCounter := 0, exitTimeout := none,
    exitInterval := false, entryTimeout := none, entryInterval := false,
    preAlarmTimeout := none, alarmDurationTimeout := false, silentEventTimeout := false,
    entryChirp := false, leaveChirp := false, postAlarmChirp := false,
    entryChirpTimeout := false, leaveChirpTimeout := false, postAlarmChirpTimeout := false }

/-- A bypassable instant full-mode sensor. -/
def sensorS1 : InternalSensor :=
  { stateId := "ext.0.window1", name := "S1", invert := false, debounceMs := none,
    bypassable := true, policy := .instant, modeMask := [.full], triggerValue := true }

/-- A non-bypassable instant full-mode sensor. -/
def sensorS2 : InternalSensor :=
  { stateId := "ext.0.door1", name := "S2", invert := false, debounceMs := none,
    bypassable := false, policy := .instant, modeMask := [.full], triggerValue := true }

/-- A silent-policy sensor. -/
def sensorS3 : InternalSensor :=
  { stateId := "ext.0.tamper1", name := "S3", invert := false, debounceMs := none,
    bypassable := false, policy := .silent, modeMask := [.perimeter, .full],
    triggerValue := true }

/-- A sensor with a 500 ms per-sensor debounce override. -/
def sensorS4 : InternalSensor :=
  { stateId := "ext.0.motion1", name := "S4", invert := false, debounceMs := some 500,
    bypassable := false, policy := .instant, modeMask := [.full], triggerValue := true }

/-- A siren output (active true / inactive false). -/
def outSiren : InternalOutput :=
  { stateId := "ext.0.siren1", name := "Siren", otype := "siren",
    activeValue := .bool true, inactiveValue := .bool false }

/-- Everything open: every foreign source reads boolean true. -/
def envAllOpen : Env := fun _ => some (.bool true)

/-- System with one open bypassable sensor and blocking enabled. -/
def scfgBlock : SystemCfg :=
  { cfg := { cfgZero with blockArmingIfOpen := true }, sensors := [sensorS1], outputs := [] }

/-- System with an open bypassable and an open non-bypassable sensor,
auto-bypass enabled, blocking disabled. -/
def scfgAutoBypass : SystemCfg :=
  { cfg := { cfgZero with autoBypassOpenOnArming := true },
    sensors := [sensorS1, sensorS2], outputs := [] }

/-- System with the debounced sensor. -/
def scfgDebounce : SystemCfg :=
  { cfg := cfgZero, sensors := [sensorS4], outputs := [] }

/-- System with only the silent sensor. -/
def scfgSilent : SystemCfg :=
  { cfg := cfgZero, sensors := [sensorS3], outputs := [] }

/-- System with a siren output and a 30 s alarm duration. -/
def scfgSiren : SystemCfg :=
  { cfg := { cfgZero with alarmDurationSec := 30 }, sensors := [sensorS2],
    outputs := [outSiren] }

/-- Configuration in which all five delays are negative. -/
def cfgAllNegative : AlarmConfig :=
  { exitDelaySec := -3, entryDelaySec := -5, chirpSec := -2, preAlarmSec := -4,
    alarmDurationSec := -6, blockArmingIfOpen := false, autoBypassOpenOnArming := false,
    useBaselineSnapshot := false, debounceMsDefault := 0 }

/-- Configuration whose only negative delay is the entry delay. -/
def cfgNegEntry : AlarmConfig :=
  { cfgZero with entryDelaySec := -5 }

/-- System with all delays negative and one sensor. -/
def scfgNegative : SystemCfg :=
  { cfg := cfgAllNegative, sensors := [sensorS2], outputs := [] }

/-- The combined effect of the five timer-clear helpers
(`clearExitTimers` through `clearSilentEventTimer`) written as one record
update; proofs use it to keep the nested updates tractable. -/
def clearedTimers (s : AState) : AState :=
  { s with
    exitTimeout := none
    exitInterval := false
    entryTimeout := none
    entryInterval := false
    preAlarmTimeout := none
    alarmDurationTimeout := false
    silentEventTimeout := false }

/-- C4: the implementation's normalization agrees with the specification's
case table on every input, for every sensor: booleans pass through, numbers
0/1 map to false/true, trimmed lowercased "true"/"false" strings map to
true/false, everything else (including null/undefined) is unreadable, and the
invert flag flips the canonical result after acceptance.  Both functions are
pure and total. -/
theorem normalizeSensorValue_matches_spec (value : StateValue) (sensor : InternalSensor) :
    normalizeSensorValue value sensor = specNormalize value sensor.invert := by
  cases value with
  | null => rfl
  | bool b => rfl
  | num n =>
    simp only [normalizeSensorValue, specNormalize]
    by_cases h1 : n = 1
    · simp [h1]
    · by_cases h0 : n = 0 <;> simp [h0, h1]
  | str s =>
    simp only [normalizeSensorValue, specNormalize]
    by_cases ht : s.trim.toLower = "true"
    · simp [ht]
    · by_cases hf : s.trim.toLower = "false" <;> simp [ht, hf]

theorem clearChain_flat (s : AState) :
    clearSilentEventTimer (clearAlarmDurationTimer (clearPreAlarmTimer
      (clearEntryTimers (clearExitTimers s))))
    = clearedTimers s := by
  have h2 : clearEntryTimers (clearExitTimers s)
      = { s with
          exitTimeout := none
          exitInterval := false
          entryTimeout := none
          entryInterval := false } := rfl
  rw [h2]
  have h3 : clearPreAlarmTimer
      { s with
        exitTimeout := none
        exitInterval := false
        entryTimeout := none
        entryInterval := false }
      = { s with
          exitTimeout := none
          exitInterval := false
          entryTimeout := none
          entryInterval := false
          preAlarmTimeout := none } := rfl
  rw [h3]
  have h4 : clearAlarmDurationTimer
      { s with
        exitTimeout := none
        exitInterval := false
        entryTimeout := none
        entryInterval := false
        preAlarmTimeout := none }
      = { s with
          exitTimeout := none
          exitInterval := false
          entryTimeout := none
          entryInterval := false
          preAlarmTimeout := none
          alarmDurationTimeout := false } := rfl
  rw [h4]
  rfl

theorem troubleOnly_nil : troubleOnly [] := by
  intro e he
  cases he

theorem troubleOnly_append {a b : List EventRecord} (ha : troubleOnly a) (hb : troubleOnly b) :
    troubleOnly (a ++ b) := by
  intro e he
  rcases List.mem_append.mp he with h | h
  · exact ha e h
  · exact hb e h

theorem scanPreserves_refl (s : AState) : ScanPreserves s s :=
  ⟨rfl, rfl, rfl, rfl, rfl, rfl, rfl, rfl, rfl, rfl, rfl, rfl, rfl, rfl, rfl,
    ⟨[], rfl, troubleOnly_nil⟩⟩

theorem scanPreserves_trans {s t u : AState} (h1 : ScanPreserves s t)
    (h2 : ScanPreserves t u) : ScanPreserves s u := by
  obtain ⟨evs1, he1, ht1⟩ := h1.events
  obtain ⟨evs2, he2, ht2⟩ := h2.events
  refine ⟨h2.rb.trans h1.rb, h2.mode.trans h1.mode, h2.exitT.trans h1.exitT,
    h2.exitI.trans h1.exitI, h2.entryT.trans h1.entryT, h2.entryI.trans h1.entryI,
    h2.preT.trans h1.preT, h2.durT.trans h1.durT, h2.alarmA.trans h1.alarmA,
    h2.outA.trans h1.outA, h2.sil.trans h1.sil, h2.silev.trans h1.silev,
    h2.byl.trans h1.byl, h2.lsv.trans h1.lsv, h2.letm.trans h1.letm,
    evs2 ++ evs1, ?_, troubleOnly_append ht2 ht1⟩
  rw [he2, he1, List.append_assoc]

theorem scanPreserves_addTrouble (scfg : SystemCfg) (s : AState) (id : String) :
    ScanPreserves s (addTroubleSensor scfg s id) := by
  unfold addTroubleSensor
  split
  · exact scanPreserves_refl s
  · refine ⟨rfl, rfl, rfl, rfl, rfl, rfl, rfl, rfl, rfl, rfl, rfl, rfl, rfl, rfl, rfl,
      ⟨[_], rfl, ?_⟩⟩
    intro e he
    rw [List.mem_singleton] at he
    subst he
    left
    rfl

theorem scanPreserves_removeTrouble (scfg : SystemCfg) (s : AState) (id : String) :
    ScanPreserves s (removeTroubleSensor scfg s id) := by
  unfold removeTroubleSensor
  split
  · refine ⟨rfl, rfl, rfl, rfl, rfl, rfl, rfl, rfl, rfl, rfl, rfl, rfl, rfl, rfl, rfl,
      ⟨[_], rfl, ?_⟩⟩
    intro e he
    rw [List.mem_singleton] at he
    subst he
    right
    rfl
  · exact scanPreserves_refl s

theorem scanPreserves_openScanGo (scfg : SystemCfg) (env : Env) (m : ControlMode)
    (l : List InternalSensor) : ∀ s : AState, ScanPreserves s (openScanGo scfg env m l s).2 := by
  induction l with
  | nil => intro s; exact scanPreserves_refl s
  | cons sensor rest ih =>
    intro s
    simp only [openScanGo]
    split
    · exact ih s
    · split
      · exact ih s
      · split
        · exact scanPreserves_trans (scanPreserves_addTrouble scfg s sensor.stateId) (ih _)
        · have base := scanPreserves_trans (scanPreserves_removeTrouble scfg s sensor.stateId)
            (ih (removeTroubleSensor scfg s sensor.stateId))
          split
          · exact base
          · exact base

theorem scanPreserves_baselineScanGo (scfg : SystemCfg) (env : Env)
    (l : List InternalSensor) : ∀ s : AState, ScanPreserves s (baselineScanGo scfg env l s) := by
  induction l with
  | nil => intro s; exact scanPreserves_refl s
  | cons sensor rest ih =>
    intro s
    simp only [baselineScanGo]
    split
    · exact scanPreserves_trans (scanPreserves_addTrouble scfg s sensor.stateId) (ih _)
    · refine scanPreserves_trans (scanPreserves_trans
        (scanPreserves_removeTrouble scfg s sensor.stateId) ?_) (ih _)
      exact ⟨rfl, rfl, rfl, rfl, rfl, rfl, rfl, rfl, rfl, rfl, rfl, rfl, rfl, rfl, rfl,
        ⟨[], rfl, troubleOnly_nil⟩⟩

theorem scanPreserves_armingScanGo (scfg : SystemCfg) (env : Env) (m : ControlMode)
    (l : List InternalSensor) : ∀ s : AState, ScanPreserves s (armingScanGo scfg env m l s).2 := by
  induction l with
  | nil => intro s; exact scanPreserves_refl s
  | cons sensor rest ih =>
    intro s
    simp only [armingScanGo]
    split
    · exact ih s
    · split
      · exact ih s
      · split
        · exact scanPreserves_trans (scanPreserves_addTrouble scfg s sensor.stateId) (ih _)
        · refine scanPreserves_trans (scanPreserves_trans
            (scanPreserves_removeTrouble scfg s sensor.stateId) ?_) (ih _)
          exact ⟨rfl, rfl, rfl, rfl, rfl, rfl, rfl, rfl, rfl, rfl, rfl, rfl, rfl, rfl, rfl,
            ⟨[], rfl, troubleOnly_nil⟩⟩

/-- The open-sensor list computed by the scan is the pure
`openSensorIds` of the pre-scan runtime-bypass set. -/
theorem openScanGo_fst (scfg : SystemCfg) (env : Env) (m : ControlMode)
    (l : List InternalSensor) : ∀ s : AState,
    (openScanGo scfg env m l s).1 = openSensorIdsFrom scfg env m s.runtimeBypass l := by
  induction l with
  | nil => intro s; rfl
  | cons sensor rest ih =>
    intro s
    have hrb1 := (scanPreserves_addTrouble scfg s sensor.stateId).rb
    have hrb2 := (scanPreserves_removeTrouble scfg s sensor.stateId).rb
    by_cases hrel : isSensorRelevantForMode sensor m = true
    · by_cases hmem : sensor.stateId ∈ s.runtimeBypass
      · simp only [openScanGo, openSensorIdsFrom, hrel, hmem, not_true_eq_false, if_false,
          if_true, and_true, true_and, not_true, false_and, and_false]
        exact ih s
      · rcases hv : (env sensor.stateId).bind (fun v => normalizeSensorValue v sensor) with _ | b
        · simp only [openScanGo, openSensorIdsFrom, hrel, hmem, hv, not_true_eq_false,
            if_false, not_false_eq_true, true_and, false_and, and_false, and_true]
          rw [if_neg (by simp), ih _, hrb1]
        · by_cases hb : b = sensor.triggerValue
          · subst hb
            simp only [openScanGo, openSensorIdsFrom, hrel, hmem, hv, not_true_eq_false,
              if_false, not_false_eq_true, true_and, and_true, eq_self_iff_true, if_true]
            rw [ih _, hrb2]
          · simp only [openScanGo, openSensorIdsFrom, hrel, hmem, hv, hb, not_true_eq_false,
              if_false, not_false_eq_true, true_and, and_true, Option.some.injEq, and_false]
            rw [ih _, hrb2]
    · simp only [openScanGo, openSensorIdsFrom, hrel, not_false_eq_true, if_true, false_and,
        if_false]
      exact ih s

theorem postChirp_preserves (u : AState) (d : Nat) :
    (startPostAlarmChirp u d).mode = u.mode
    ∧ (startPostAlarmChirp u d).exitRemaining = u.exitRemaining
    ∧ (startPostAlarmChirp u d).entryRemaining = u.entryRemaining
    ∧ (startPostAlarmChirp u d).alarmActive = u.alarmActive
    ∧ (startPostAlarmChirp u d).outputsActive = u.outputsActive
    ∧ (startPostAlarmChirp u d).runtimeBypass = u.runtimeBypass
    ∧ (startPostAlarmChirp u d).baselineSnapshot = u.baselineSnapshot
    ∧ (startPostAlarmChirp u d).armingStateSnapshot = u.armingStateSnapshot := by
  simp only [startPostAlarmChirp, stopPostAlarmChirp]
  split <;> simp

/-- C1: disarming, from any state, always ends with mode `disarmed`, both
remaining-seconds counters at 0, the alarm-active and outputs-active flags
false, and the runtime-bypass set, baseline snapshot and arming-state
snapshot all empty. -/
theorem disarm_always_resets (scfg : SystemCfg) (s : AState) :
    (handleDisarm scfg s).mode = ControlMode.disarmed
    ∧ (handleDisarm scfg s).exitRemaining = 0
    ∧ (handleDisarm scfg s).entryRemaining = 0
    ∧ (handleDisarm scfg s).alarmActive = false
    ∧ (handleDisarm scfg s).outputsActive = false
    ∧ (handleDisarm scfg s).runtimeBypass = []
    ∧ (handleDisarm scfg s).baselineSnapshot = []
    ∧ (handleDisarm scfg s).armingStateSnapshot = [] := by
  simp only [handleDisarm]
  split
  · obtain ⟨p1, p2, p3, p4, p5, p6, p7, p8⟩ :=
      postChirp_preserves _ (clampSec scfg.cfg.chirpSec)
    exact ⟨p1.trans rfl, p2.trans rfl, p3.trans rfl, p4.trans rfl, p5.trans rfl,
      p6.trans rfl, p7.trans rfl, p8.trans rfl⟩
  · exact ⟨rfl, rfl, rfl, rfl, rfl, rfl, rfl, rfl⟩

theorem parseControlMode_toStr (m : ControlMode) : parseControlMode m.toStr = some m := by
  cases m <;> rfl

theorem toStr_ne_disarmed (m : ControlMode) (hm : m ≠ ControlMode.disarmed) :
    ¬ m.toStr = "disarmed" := by
  cases m
  · exact absurd rfl hm
  all_goals decide

/-- C10: writing any valid non-"disarmed" mode string unacknowledged to
`control.mode` commits the mode and recomputes the outputs, and changes
nothing else: the whole resulting state is the old state with exactly the
`mode` and `lastOutputValues` fields replaced (so no open-sensor scan, no
bypass or snapshot change, no timer started or cancelled, and no event). -/
theorem direct_mode_set_frame (scfg : SystemCfg) (s : AState) (m : ControlMode)
    (hm : m ≠ ControlMode.disarmed) :
    handleControlModeInput scfg s m.toStr =
      { s with mode := m, lastOutputValues := computeOutputTargets scfg m s.silenced } := by
  unfold handleControlModeInput
  rw [if_neg (toStr_ne_disarmed m hm), parseControlMode_toStr]
  rfl

/-- Witness for C10: a concrete `armed_full` direct mode set. -/
theorem direct_mode_set_frame_witness :
    handleControlModeInput scfgSiren initialState ControlMode.armed_full.toStr =
      { initialState with
        mode := ControlMode.armed_full
        lastOutputValues := computeOutputTargets scfgSiren ControlMode.armed_full
          initialState.silenced } :=
  direct_mode_set_frame scfgSiren initialState ControlMode.armed_full (by decide)

/-- C6: a firing sensor whose policy is `silent` routes, in every control
mode, to a silent event: the silent-event counter is incremented by one,
exactly one `silent_event` record of severity info is emitted, and the mode
is unchanged (so never becomes `alarm_pre`/`alarm_full`) with no escalation
timer started. -/
theorem silent_policy_no_escalation (scfg : SystemCfg) (s : AState)
    (sensor : InternalSensor) (mode : ControlMode)
    (h : sensor.policy = SensorPolicy.silent) :
    (handleSensorTrigger scfg s sensor mode).mode = s.mode
    ∧ (handleSensorTrigger scfg s sensor mode).silentEvent = s.silentEvent + 1
    ∧ (handleSensorTrigger scfg s sensor mode).entryTimeout = s.entryTimeout
    ∧ (handleSensorTrigger scfg s sensor mode).preAlarmTimeout = s.preAlarmTimeout
    ∧ ∃ e, (handleSensorTrigger scfg s sensor mode).events = e :: s.events
        ∧ e.etype = "silent_event" ∧ e.severity = EventSeverity.info := by
  have hrw : handleSensorTrigger scfg s sensor mode
      = handleSilentEvent scfg s sensor "silent_trigger" := by
    unfold handleSensorTrigger
    rw [if_pos h]
  rw [hrw]
  exact ⟨rfl, rfl, rfl, rfl, _, rfl, rfl, rfl⟩

/-- Witness for C6: the silent sensor fired while fully armed. -/
theorem silent_policy_no_escalation_witness :
    (handleSensorTrigger scfgSilent initialState sensorS3 ControlMode.armed_full).mode
        = initialState.mode
    ∧ (handleSensorTrigger scfgSilent initialState sensorS3 ControlMode.armed_full).silentEvent
        = initialState.silentEvent + 1
    ∧ (handleSensorTrigger scfgSilent initialState sensorS3 ControlMode.armed_full).entryTimeout
        = initialState.entryTimeout
    ∧ (handleSensorTrigger scfgSilent initialState sensorS3 ControlMode.armed_full).preAlarmTimeout
        = initialState.preAlarmTimeout
    ∧ ∃ e, (handleSensorTrigger scfgSilent initialState sensorS3 ControlMode.armed_full).events
          = e :: initialState.events
        ∧ e.etype = "silent_event" ∧ e.severity = EventSeverity.info := by
  have h : sensorS3.policy = SensorPolicy.silent := by decide
  exact silent_policy_no_escalation scfgSilent initialState sensorS3 ControlMode.armed_full h

/-- C7: marking an already-marked sensor and clearing an unmarked one are
no-ops with no event and no state change; `trouble_added` (warning) is
emitted exactly on actual insertion and `trouble_removed` (info) exactly on
actual removal, each followed by recomputation of the aggregate flag. -/
theorem trouble_mark_clear_idempotent (scfg : SystemCfg) (s : AState) (id : String) :
    (if id ∈ s.troubleSensors then
        addTroubleSensor scfg s id = s
      else
        (addTroubleSensor scfg s id).troubleSensors = s.troubleSensors ++ [id]
        ∧ (addTroubleSensor scfg s id).troubleActive = !(s.troubleSensors ++ [id]).isEmpty
        ∧ ∃ e, (addTroubleSensor scfg s id).events = e :: s.events
            ∧ e.etype = "trouble_added" ∧ e.severity = EventSeverity.warning)
    ∧ (if id ∈ s.troubleSensors then
        (removeTroubleSensor scfg s id).troubleSensors
            = s.troubleSensors.filter (fun x => x ≠ id)
        ∧ (removeTroubleSensor scfg s id).troubleActive
            = !(s.troubleSensors.filter (fun x => x ≠ id)).isEmpty
        ∧ ∃ e, (removeTroubleSensor scfg s id).events = e :: s.events
            ∧ e.etype = "trouble_removed" ∧ e.severity = EventSeverity.info
      else removeTroubleSensor scfg s id = s) := by
  constructor
  · by_cases h : id ∈ s.troubleSensors
    · rw [if_pos h]
      unfold addTroubleSensor
      rw [if_pos h]
    · rw [if_neg h]
      unfold addTroubleSensor
      rw [if_neg h]
      exact ⟨rfl, rfl, _, rfl, rfl, rfl⟩
  · by_cases h : id ∈ s.troubleSensors
    · rw [if_pos h]
      unfold removeTroubleSensor
      rw [if_pos h]
      exact ⟨rfl, rfl, _, rfl, rfl, rfl⟩
    · rw [if_neg h]
      unfold removeTroubleSensor
      rw [if_neg h]

/-- C8 counterexample: with the concrete siren system (alarm duration 30 s,
active value `true`, inactive `false`), after `startFullAlarm` and the firing
of the duration timer the outputs-active flag is cleared and the mode is
still `alarm_full`, but the siren's last-applied value is still the active
value — the timer does not silence the outputs, contradicting the claim. -/
theorem alarm_duration_not_silencing_countereg :
    (alarmDurationElapsed (startFullAlarm scfgSiren initialState sensorS2
        "instant_trigger")).outputsActive = false
    ∧ (alarmDurationElapsed (startFullAlarm scfgSiren initialState sensorS2
        "instant_trigger")).mode = ControlMode.alarm_full
    ∧ assocGet (alarmDurationElapsed (startFullAlarm scfgSiren initialState sensorS2
        "instant_trigger")).lastOutputValues outSiren.stateId = some outSiren.activeValue
    ∧ ¬ assocGet (alarmDurationElapsed (startFullAlarm scfgSiren initialState sensorS2
        "instant_trigger")).lastOutputValues outSiren.stateId = some outSiren.inactiveValue := by
  decide

/-- C8 (amended): when full alarm starts with a configured alarm duration
greater than 0, the duration timer is scheduled; its firing clears only the
outputs-active flag — the mode remains `alarm_full` (no auto-disarm), the
alarm-active flag stays set, and the configured outputs are not rewritten
(their last-applied values are unchanged). -/
theorem alarm_duration_clears_flag_only (scfg : SystemCfg) (s : AState)
    (sensor : InternalSensor) (reason : String) (h : 0 < scfg.cfg.alarmDurationSec) :
    (startFullAlarm scfg s sensor reason).alarmDurationTimeout = true
    ∧ (alarmDurationElapsed (startFullAlarm scfg s sensor reason)).outputsActive = false
    ∧ (alarmDurationElapsed (startFullAlarm scfg s sensor reason)).mode = ControlMode.alarm_full
    ∧ (alarmDurationElapsed (startFullAlarm scfg s sensor reason)).alarmActive = true
    ∧ (alarmDurationElapsed (startFullAlarm scfg s sensor reason)).lastOutputValues
        = (startFullAlarm scfg s sensor reason).lastOutputValues := by
  have hc : ¬ clampSec scfg.cfg.alarmDurationSec = 0 := by
    unfold clampSec
    omega
  have hpos : 0 < clampSec scfg.cfg.alarmDurationSec := Nat.pos_of_ne_zero hc
  have hrw : startFullAlarm scfg s sensor reason =
      { emitEvent (updateLastEvent
          { setControlMode scfg (clearAlarmDurationTimer (clearPreAlarmTimer s))
              ControlMode.alarm_full with
            alarmActive := true
            outputsActive := true } reason (some sensor) (some ControlMode.alarm_full))
          { etype := "alarm_full_started"
            mode := ControlMode.alarm_full
            sensorId := some sensor.stateId
            sensorName := some sensor.name
            severity := EventSeverity.alarm
            message := "Full alarm started (" ++ sensorDisplayName sensor ++ ")" } with
        alarmDurationTimeout := true } := by
    unfold startFullAlarm
    rw [if_pos hpos]
  rw [hrw]
  exact ⟨rfl, rfl, rfl, rfl, rfl⟩

/-- Witness for C8 (amended) at the concrete siren system. -/
theorem alarm_duration_clears_flag_only_witness :
    (startFullAlarm scfgSiren initialState sensorS2 "instant_trigger").alarmDurationTimeout = true
    ∧ (alarmDurationElapsed (startFullAlarm scfgSiren initialState sensorS2
        "instant_trigger")).outputsActive = false
    ∧ (alarmDurationElapsed (startFullAlarm scfgSiren initialState sensorS2
        "instant_trigger")).mode = ControlMode.alarm_full
    ∧ (alarmDurationElapsed (startFullAlarm scfgSiren initialState sensorS2
        "instant_trigger")).alarmActive = true
    ∧ (alarmDurationElapsed (startFullAlarm scfgSiren initialState sensorS2
        "instant_trigger")).lastOutputValues
        = (startFullAlarm scfgSiren initialState sensorS2 "instant_trigger").lastOutputValues := by
  have h : (0 : Int) < scfgSiren.cfg.alarmDurationSec := by decide
  exact alarm_duration_clears_flag_only scfgSiren initialState sensorS2 "instant_trigger" h

theorem events_extension_cons (X : AState) (e : EventRecord) {evs base : List EventRecord}
    (h : X.events = evs ++ base) : ∃ evs2, (emitEvent X e).events = evs2 ++ base :=
  ⟨e :: evs, by simp [emitEvent, h]⟩

theorem finishArming_spec (scfg : SystemCfg) (env : Env) (s : AState) (m : ControlMode) :
    (finishArming scfg env s m).mode = m
    ∧ (finishArming scfg env s m).exitTimeout = none
    ∧ (finishArming scfg env s m).exitInterval = false
    ∧ (finishArming scfg env s m).runtimeBypass = s.runtimeBypass
    ∧ (finishArming scfg env s m).bypassedList = s.bypassedList
    ∧ ∃ evs, (finishArming scfg env s m).events = evs ++ s.events := by
  simp only [finishArming]
  split
  · have hb := scanPreserves_baselineScanGo scfg env scfg.sensors
      { clearExitTimers s with exitRemaining := 0 }
    have h4 := scanPreserves_armingScanGo scfg env m scfg.sensors
      { baselineScanGo scfg env scfg.sensors { clearExitTimers s with exitRemaining := 0 } with
        armingStateSnapshot := [] }
    obtain ⟨evs1, he1, -⟩ := h4.events
    obtain ⟨evs2, he2, -⟩ := hb.events
    have hx : (armingScanGo scfg env m scfg.sensors
        { baselineScanGo scfg env scfg.sensors { clearExitTimers s with exitRemaining := 0 } with
          armingStateSnapshot := [] }).2.events = (evs1 ++ evs2) ++ s.events := by
      rw [he1, List.append_assoc]
      exact congrArg (evs1 ++ ·) he2
    refine ⟨rfl, h4.exitT.trans (hb.exitT.trans rfl), h4.exitI.trans (hb.exitI.trans rfl),
      h4.rb.trans (hb.rb.trans rfl), h4.byl.trans (hb.byl.trans rfl), ?_⟩
    exact events_extension_cons _ _ hx
  · have h4 := scanPreserves_armingScanGo scfg env m scfg.sensors
      { clearExitTimers s with exitRemaining := 0, armingStateSnapshot := [] }
    obtain ⟨evs1, he1, -⟩ := h4.events
    refine ⟨rfl, h4.exitT.trans rfl, h4.exitI.trans rfl, h4.rb.trans rfl,
      h4.byl.trans rfl, ?_⟩
    exact events_extension_cons _ _ he1

theorem autoBypass_foldl_mono (scfg : SystemCfg) (l : List String) :
    ∀ (acc : List String × List String) (x : String),
      (x ∈ acc.1 → x ∈ (l.foldl (autoBypassStep scfg) acc).1)
      ∧ (x ∈ acc.2 → x ∈ (l.foldl (autoBypassStep scfg) acc).2) := by
  induction l with
  | nil => exact fun acc x => ⟨id, id⟩
  | cons a rest ih =>
    intro acc x
    simp only [List.foldl_cons]
    refine ⟨fun hx => (ih (autoBypassStep scfg acc a) x).1 ?_,
      fun hx => (ih (autoBypassStep scfg acc a) x).2 ?_⟩
    · unfold autoBypassStep
      cases lookupSensor scfg.sensors a with
      | none => exact hx
      | some sn =>
        dsimp only
        split
        · unfold insertUnique
          split
          · exact hx
          · exact List.mem_append_left _ hx
        · exact hx
    · unfold autoBypassStep
      cases lookupSensor scfg.sensors a with
      | none => exact hx
      | some sn =>
        dsimp only
        split
        · exact List.mem_append_left _ hx
        · exact hx

theorem autoBypass_foldl_adds (scfg : SystemCfg) (sid : String) (sn : InternalSensor)
    (hs : lookupSensor scfg.sensors sid = some sn) (hby : sn.bypassable = true) :
    ∀ (l : List String) (acc : List String × List String), sid ∈ l →
      sid ∈ (l.foldl (autoBypassStep scfg) acc).1
      ∧ sid ∈ (l.foldl (autoBypassStep scfg) acc).2 := by
  intro l
  induction l with
  | nil =>
    intro acc h
    cases h
  | cons a rest ih =>
    intro acc hmem
    simp only [List.foldl_cons]
    rcases List.mem_cons.mp hmem with h | h
    · subst h
      have hstep1 : sid ∈ (autoBypassStep scfg acc sid).1 := by
        unfold autoBypassStep
        rw [hs]
        dsimp only
        rw [if_pos hby]
        unfold insertUnique
        split
        · assumption
        · exact List.mem_append_right _ (by simp)
      have hstep2 : sid ∈ (autoBypassStep scfg acc sid).2 := by
        unfold autoBypassStep
        rw [hs]
        dsimp only
        rw [if_pos hby]
        exact List.mem_append_right _ (by simp)
      exact ⟨(autoBypass_foldl_mono scfg rest _ sid).1 hstep1,
        (autoBypass_foldl_mono scfg rest _ sid).2 hstep2⟩
    · exact ih _ h

theorem armProceed_spec (scfg : SystemCfg) (env : Env) (s2 : AState)
    (openSensors : List String) (targetMode : ControlMode) :
    ((armProceed scfg env s2 openSensors targetMode).mode = ControlMode.arming
      ∨ (armProceed scfg env s2 openSensors targetMode).mode = targetMode)
    ∧ (armProceed scfg env s2 openSensors targetMode).runtimeBypass
        = (armBypassPair scfg s2 openSensors).1
    ∧ (armProceed scfg env s2 openSensors targetMode).bypassedList
        = (armBypassPair scfg s2 openSensors).2
    ∧ (clampSec scfg.cfg.exitDelaySec = 0 →
        (armProceed scfg env s2 openSensors targetMode).exitTimeout = none
        ∧ (armProceed scfg env s2 openSensors targetMode).exitInterval = false)
    ∧ ∃ evs, (armProceed scfg env s2 openSensors targetMode).events = evs ++ s2.events
        ∧ ∃ e ∈ evs, e.etype = "arming_started" := by
  simp only [armProceed]
  split
  case isTrue hz =>
    obtain ⟨hmF, hxtF, hxiF, hrbF, hblF, hevF⟩ := finishArming_spec scfg env
      (emitEvent (setControlMode scfg (clearExitTimers
        { s2 with
          runtimeBypass := (armBypassPair scfg s2 openSensors).1
          bypassedList := (armBypassPair scfg s2 openSensors).2 }) ControlMode.arming)
        (armingStartedEvent targetMode)) targetMode
    obtain ⟨evsF, heF⟩ := hevF
    refine ⟨Or.inr hmF, hrbF.trans rfl, hblF.trans rfl, fun _ => ⟨hxtF, hxiF⟩,
      evsF ++ [armingStartedEvent targetMode], ?_,
      armingStartedEvent targetMode, by simp, rfl⟩
    rw [heF, List.append_assoc]
    rfl
  case isFalse hz =>
    refine ⟨Or.inl rfl, rfl, rfl, fun hz0 => absurd hz0 hz,
      [armingStartedEvent targetMode], rfl, armingStartedEvent targetMode, by simp, rfl⟩

theorem handleArm_sync_no_exit_timer (scfg : SystemCfg) (env : Env) (s : AState)
    (targetMode : ControlMode) (hz : clampSec scfg.cfg.exitDelaySec = 0) :
    (handleArm scfg env s targetMode).exitTimeout = none
    ∧ (handleArm scfg env s targetMode).exitInterval = false := by
  have hscan := scanPreserves_openScanGo scfg env targetMode scfg.sensors (clearedTimers s)
  simp only [handleArm, getOpenSensorsForMode]
  rw [clearChain_flat]
  split
  · exact ⟨hscan.exitT.trans rfl, hscan.exitI.trans rfl⟩
  · obtain ⟨-, -, -, himp, -⟩ := armProceed_spec scfg env
      { (openScanGo scfg env targetMode scfg.sensors (clearedTimers s)).2 with
        openList := (openScanGo scfg env targetMode scfg.sensors (clearedTimers s)).1
        stateList := [] }
      (openScanGo scfg env targetMode scfg.sensors (clearedTimers s)).1 targetMode
    exact himp hz

theorem startEntryDelay_sync_escalation (scfg : SystemCfg) (s : AState)
    (sensor : InternalSensor)
    (hentry : clampSec scfg.cfg.entryDelaySec = 0)
    (hexit : clampSec scfg.cfg.exitDelaySec = 0)
    (hpre : ¬ 0 < scfg.cfg.preAlarmSec)
    (hdur : clampSec scfg.cfg.alarmDurationSec = 0) :
    (startEntryDelay scfg s sensor).entryTimeout = none
    ∧ (startEntryDelay scfg s sensor).entryInterval = false
    ∧ (startEntryDelay scfg s sensor).mode = ControlMode.alarm_full
    ∧ (startEntryDelay scfg s sensor).alarmDurationTimeout = false
    ∧ (startEntryDelay scfg s sensor).entryChirpTimeout = false
    ∧ (startEntryDelay scfg s sensor).leaveChirpTimeout = false := by
  simp only [startEntryDelay, hentry, hexit, startEntryChirp, startLeaveChirp, stopEntryChirp,
    stopLeaveChirp]
  simp only [eq_self_iff_true, if_true]
  simp only [triggerAlarm]
  rw [if_neg hpre]
  simp only [startFullAlarm, hdur]
  rw [if_neg (lt_irrefl 0)]
  exact ⟨rfl, rfl, rfl, rfl, rfl, rfl⟩

theorem disarm_no_post_chirp_timer (scfg : SystemCfg) (s : AState)
    (hchirp : clampSec scfg.cfg.chirpSec = 0) :
    (handleDisarm scfg s).postAlarmChirpTimeout = false := by
  simp only [handleDisarm, hchirp, startPostAlarmChirp, stopPostAlarmChirp]
  split
  · simp only [eq_self_iff_true, if_true]
  · rfl

/-- C9 counterexample: with only the entry delay configured negative, the
value is clamped to 0 at its use site but the load-time warning list is empty
— no warning is logged for it, contradicting the claim that every negative
delay is clamped *and* warned about. -/
theorem negative_entry_delay_unwarned_countereg :
    cfgNegEntry.entryDelaySec < 0
    ∧ clampSec cfgNegEntry.entryDelaySec = 0
    ∧ negativeDelayWarnings cfgNegEntry = [] := by
  decide

/-- C9 (amended): every negative configured exit/entry/pre-alarm/
alarm-duration/chirp delay is clamped to 0 at its use site, and the clamped 0
means a synchronous transition with no timer (arming finalizes with no exit
timer, an entry trigger escalates synchronously through to `alarm_full` with
no entry, duration or chirp timer, and disarm schedules no post-alarm chirp);
however the logged warning covers only the negative exit delay. -/
theorem negative_delays_clamped_sync (scfg : SystemCfg) (env : Env) (s : AState)
    (targetMode : ControlMode) (sensor : InternalSensor)
    (hexit : scfg.cfg.exitDelaySec < 0) (hentry : scfg.cfg.entryDelaySec < 0)
    (hpre : scfg.cfg.preAlarmSec < 0) (hdur : scfg.cfg.alarmDurationSec < 0)
    (hchirp : scfg.cfg.chirpSec < 0) :
    clampSec scfg.cfg.exitDelaySec = 0
    ∧ clampSec scfg.cfg.entryDelaySec = 0
    ∧ clampSec scfg.cfg.preAlarmSec = 0
    ∧ clampSec scfg.cfg.alarmDurationSec = 0
    ∧ clampSec scfg.cfg.chirpSec = 0
    ∧ negativeDelayWarnings scfg.cfg = ["exitDelaySec is negative; forcing to 0"]
    ∧ (handleArm scfg env s targetMode).exitTimeout = none
    ∧ (handleArm scfg env s targetMode).exitInterval = false
    ∧ (startEntryDelay scfg s sensor).entryTimeout = none
    ∧ (startEntryDelay scfg s sensor).entryInterval = false
    ∧ (startEntryDelay scfg s sensor).mode = ControlMode.alarm_full
    ∧ (startEntryDelay scfg s sensor).alarmDurationTimeout = false
    ∧ (startEntryDelay scfg s sensor).entryChirpTimeout = false
    ∧ (startEntryDelay scfg s sensor).leaveChirpTimeout = false
    ∧ (handleDisarm scfg s).postAlarmChirpTimeout = false := by
  have c1 : clampSec scfg.cfg.exitDelaySec = 0 := by
    unfold clampSec
    rw [max_eq_left hexit.le]
    rfl
  have c2 : clampSec scfg.cfg.entryDelaySec = 0 := by
    unfold clampSec
    rw [max_eq_left hentry.le]
    rfl
  have c3 : clampSec scfg.cfg.preAlarmSec = 0 := by
    unfold clampSec
    rw [max_eq_left hpre.le]
    rfl
  have c4 : clampSec scfg.cfg.alarmDurationSec = 0 := by
    unfold clampSec
    rw [max_eq_left hdur.le]
    rfl
  have c5 : clampSec scfg.cfg.chirpSec = 0 := by
    unfold clampSec
    rw [max_eq_left hchirp.le]
    rfl
  have hw : negativeDelayWarnings scfg.cfg = ["exitDelaySec is negative; forcing to 0"] := by
    unfold negativeDelayWarnings
    rw [if_pos hexit]
  obtain ⟨a1, a2⟩ := handleArm_sync_no_exit_timer scfg env s targetMode c1
  obtain ⟨b1, b2, b3, b4, b5, b6⟩ := startEntryDelay_sync_escalation scfg s sensor c2 c1
    (by omega) c4
  exact ⟨c1, c2, c3, c4, c5, hw, a1, a2, b1, b2, b3, b4, b5, b6,
    disarm_no_post_chirp_timer scfg s c5⟩

/-- Witness for C9 (amended) at the all-negative configuration. -/
theorem negative_delays_clamped_sync_witness :
    clampSec scfgNegative.cfg.exitDelaySec = 0
    ∧ clampSec scfgNegative.cfg.entryDelaySec = 0
    ∧ clampSec scfgNegative.cfg.preAlarmSec = 0
    ∧ clampSec scfgNegative.cfg.alarmDurationSec = 0
    ∧ clampSec scfgNegative.cfg.chirpSec = 0
    ∧ negativeDelayWarnings scfgNegative.cfg = ["exitDelaySec is negative; forcing to 0"]
    ∧ (handleArm scfgNegative envAllOpen initialState ControlMode.armed_full).exitTimeout = none
    ∧ (handleArm scfgNegative envAllOpen initialState ControlMode.armed_full).exitInterval = false
    ∧ (startEntryDelay scfgNegative initialState sensorS2).entryTimeout = none
    ∧ (startEntryDelay scfgNegative initialState sensorS2).entryInterval = false
    ∧ (startEntryDelay scfgNegative initialState sensorS2).mode = ControlMode.alarm_full
    ∧ (startEntryDelay scfgNegative initialState sensorS2).alarmDurationTimeout = false
    ∧ (startEntryDelay scfgNegative initialState sensorS2).entryChirpTimeout = false
    ∧ (startEntryDelay scfgNegative initialState sensorS2).leaveChirpTimeout = false
    ∧ (handleDisarm scfgNegative initialState).postAlarmChirpTimeout = false := by
  have h1 : scfgNegative.cfg.exitDelaySec < 0 := by decide
  have h2 : scfgNegative.cfg.entryDelaySec < 0 := by decide
  have h3 : scfgNegative.cfg.preAlarmSec < 0 := by decide
  have h4 : scfgNegative.cfg.alarmDurationSec < 0 := by decide
  have h5 : scfgNegative.cfg.chirpSec < 0 := by decide
  exact negative_delays_clamped_sync scfgNegative envAllOpen initialState ControlMode.armed_full
    sensorS2 h1 h2 h3 h4 h5

/-- C2: with `blockArmingIfOpen` enabled and at least one open mode-relevant
non-bypassed sensor, an arm request aborts: the mode ends at `disarmed`, the
published bypassed list is empty, and beyond trouble bookkeeping exactly one
event is emitted — `arming_blocked` with severity warning (in particular no
`arming_started` and no `armed` event, so no arming proceeds). -/
theorem arm_blocked_aborts (scfg : SystemCfg) (env : Env) (s : AState)
    (targetMode : ControlMode)
    (hb : scfg.cfg.blockArmingIfOpen = true)
    (ho : openSensorIds scfg env s.runtimeBypass targetMode ≠ []) :
    (handleArm scfg env s targetMode).mode = ControlMode.disarmed
    ∧ (handleArm scfg env s targetMode).bypassedList = []
    ∧ ∃ e evs, (handleArm scfg env s targetMode).events = e :: (evs ++ s.events)
        ∧ e.etype = "arming_blocked" ∧ e.severity = EventSeverity.warning
        ∧ troubleOnly evs := by
  have hscan := scanPreserves_openScanGo scfg env targetMode scfg.sensors (clearedTimers s)
  have hfst := openScanGo_fst scfg env targetMode scfg.sensors (clearedTimers s)
  have hlen : 0 < (openScanGo scfg env targetMode scfg.sensors (clearedTimers s)).1.length := by
    rw [hfst]
    exact List.length_pos.mpr ho
  obtain ⟨evs, hev, htro⟩ := hscan.events
  simp only [handleArm, getOpenSensorsForMode]
  rw [clearChain_flat]
  split
  case isFalse hcond => exact absurd ⟨hlen, hb⟩ hcond
  case isTrue hcond =>
    refine ⟨rfl, rfl,
      { etype := "arming_blocked"
        mode := ControlMode.disarmed
        sensorId := none
        sensorName := none
        severity := EventSeverity.warning
        message := "Arming blocked: open sensors ("
          ++ toString (openScanGo scfg env targetMode scfg.sensors (clearedTimers s)).1.length
          ++ ")" },
      evs, ?heq, rfl, rfl, htro⟩
    case heq =>
      simp only [emitEvent, updateLastEvent, setControlMode, updateOutputsForMode, hev]
      rfl

/-- Witness for C2: one open instant full-mode sensor, blocking enabled. -/
theorem arm_blocked_aborts_witness :
    (handleArm scfgBlock envAllOpen initialState ControlMode.armed_full).mode
        = ControlMode.disarmed
    ∧ (handleArm scfgBlock envAllOpen initialState ControlMode.armed_full).bypassedList = []
    ∧ ∃ e evs, (handleArm scfgBlock envAllOpen initialState ControlMode.armed_full).events
          = e :: (evs ++ initialState.events)
        ∧ e.etype = "arming_blocked" ∧ e.severity = EventSeverity.warning
        ∧ troubleOnly evs := by
  have h1 : scfgBlock.cfg.blockArmingIfOpen = true := by decide
  have h2 : openSensorIds scfgBlock envAllOpen initialState.runtimeBypass
      ControlMode.armed_full ≠ [] := by decide
  exact arm_blocked_aborts scfgBlock envAllOpen initialState ControlMode.armed_full h1 h2

theorem bypassed_sensor_ignored (scfg : SystemCfg) (t : AState) (sid : String)
    (raw : StateValue) (now : Nat) (hmem : sid ∈ t.runtimeBypass) :
    (handleSensorChange scfg t sid raw now).mode = t.mode
    ∧ (handleSensorChange scfg t sid raw now).alarmActive = t.alarmActive
    ∧ (handleSensorChange scfg t sid raw now).outputsActive = t.outputsActive
    ∧ (handleSensorChange scfg t sid raw now).silentEvent = t.silentEvent
    ∧ (handleSensorChange scfg t sid raw now).entryTimeout = t.entryTimeout
    ∧ (handleSensorChange scfg t sid raw now).preAlarmTimeout = t.preAlarmTimeout
    ∧ ∃ evs, (handleSensorChange scfg t sid raw now).events = evs ++ t.events
        ∧ troubleOnly evs := by
  unfold handleSensorChange
  cases hl : lookupSensor scfg.sensors sid with
  | none => exact ⟨rfl, rfl, rfl, rfl, rfl, rfl, [], rfl, troubleOnly_nil⟩
  | some sensor =>
    dsimp only
    split
    · exact ⟨rfl, rfl, rfl, rfl, rfl, rfl, [], rfl, troubleOnly_nil⟩
    · cases hn : normalizeSensorValue raw sensor with
      | none =>
        have h := scanPreserves_addTrouble scfg t sid
        obtain ⟨evs, he, ht⟩ := h.events
        exact ⟨h.mode, h.alarmA, h.outA, h.silev, h.entryT, h.preT, evs, he, ht⟩
      | some normalized =>
        have h2 := scanPreserves_removeTrouble scfg
          { t with lastEventTimestamp := assocSet t.lastEventTimestamp sid now } sid
        obtain ⟨evs, he, ht⟩ := h2.events
        have hmem2 : sid ∈ (removeTroubleSensor scfg
            { t with lastEventTimestamp := assocSet t.lastEventTimestamp sid now }
            sid).runtimeBypass := by
          rw [h2.rb]
          exact hmem
        have hdisp : sensorDispatch scfg (removeTroubleSensor scfg
            { t with lastEventTimestamp := assocSet t.lastEventTimestamp sid now } sid)
            sensor sid normalized
            = removeTroubleSensor scfg
              { t with lastEventTimestamp := assocSet t.lastEventTimestamp sid now } sid := by
          unfold sensorDispatch
          rw [if_pos hmem2]
        dsimp only
        split
        · split
          · exact ⟨h2.mode, h2.alarmA, h2.outA, h2.silev, h2.entryT, h2.preT, evs, he, ht⟩
          · split
            · exact ⟨h2.mode, h2.alarmA, h2.outA, h2.silev, h2.entryT, h2.preT, evs, he, ht⟩
            · rw [hdisp]
              exact ⟨h2.mode, h2.alarmA, h2.outA, h2.silev, h2.entryT, h2.preT, evs, he, ht⟩
        · rw [hdisp]
          exact ⟨h2.mode, h2.alarmA, h2.outA, h2.silev, h2.entryT, h2.preT, evs, he, ht⟩

set_option maxHeartbeats 1000000 in
/-- C3: with blocking disabled and auto-bypass enabled, every open sensor
that resolves to a bypassable sensor is added to the runtime-bypass set and
reported in the published bypassed list; arming proceeds regardless of any
remaining open non-bypassable sensors (the mode becomes `arming`, or the
target mode on a zero exit delay, and an `arming_started` event is emitted);
and a runtime-bypassed sensor's subsequent raw updates produce no trigger
while it stays bypassed: mode, alarm flags and the silent counter are
untouched and only trouble events may be emitted. -/
theorem auto_bypass_arming (scfg : SystemCfg) (env : Env) (s : AState)
    (targetMode : ControlMode)
    (hb : scfg.cfg.blockArmingIfOpen = false)
    (ha : scfg.cfg.autoBypassOpenOnArming = true) :
    (∀ sid ∈ openSensorIds scfg env s.runtimeBypass targetMode,
      ∀ sn, lookupSensor scfg.sensors sid = some sn → sn.bypassable = true →
        sid ∈ (handleArm scfg env s targetMode).runtimeBypass
        ∧ sid ∈ (handleArm scfg env s targetMode).bypassedList)
    ∧ ((handleArm scfg env s targetMode).mode = ControlMode.arming
        ∨ (handleArm scfg env s targetMode).mode = targetMode)
    ∧ (∃ evs, (handleArm scfg env s targetMode).events = evs ++ s.events
        ∧ ∃ e ∈ evs, e.etype = "arming_started")
    ∧ (∀ (t : AState) (sid : String) (raw : StateValue) (now : Nat),
        sid ∈ t.runtimeBypass →
          (handleSensorChange scfg t sid raw now).mode = t.mode
          ∧ (handleSensorChange scfg t sid raw now).alarmActive = t.alarmActive
          ∧ (handleSensorChange scfg t sid raw now).silentEvent = t.silentEvent
          ∧ ∃ evs, (handleSensorChange scfg t sid raw now).events = evs ++ t.events
              ∧ troubleOnly evs) := by
  have hscan := scanPreserves_openScanGo scfg env targetMode scfg.sensors (clearedTimers s)
  have hfst := openScanGo_fst scfg env targetMode scfg.sensors (clearedTimers s)
  obtain ⟨evsScan, hevScan, htroScan⟩ := hscan.events
  have hnb : ¬ (0 < (openScanGo scfg env targetMode scfg.sensors (clearedTimers s)).1.length
      ∧ scfg.cfg.blockArmingIfOpen = true) := by
    rintro ⟨-, hbt⟩
    rw [hb] at hbt
    cases hbt
  obtain ⟨hmodeP, hrbP, hblP, hsyncP, evsP, hevP, eP, hePmem, hePty⟩ := armProceed_spec scfg env
    { (openScanGo scfg env targetMode scfg.sensors (clearedTimers s)).2 with
      openList := (openScanGo scfg env targetMode scfg.sensors (clearedTimers s)).1
      stateList := [] }
    (openScanGo scfg env targetMode scfg.sensors (clearedTimers s)).1 targetMode
  have harm : handleArm scfg env s targetMode
      = armProceed scfg env
        { (openScanGo scfg env targetMode scfg.sensors (clearedTimers s)).2 with
          openList := (openScanGo scfg env targetMode scfg.sensors (clearedTimers s)).1
          stateList := [] }
        (openScanGo scfg env targetMode scfg.sensors (clearedTimers s)).1 targetMode := by
    simp only [handleArm, getOpenSensorsForMode]
    rw [clearChain_flat]
    split
    case isTrue hcond => exact absurd hcond hnb
    case isFalse hcond => rfl
  rw [harm]
  refine ⟨?byp, hmodeP, ?ev, ?ign⟩
  case byp =>
    intro sid hsid sn hsn hbyp
    have hsid2 : sid ∈ (openScanGo scfg env targetMode scfg.sensors (clearedTimers s)).1 := by
      rw [hfst]
      exact hsid
    have hlen : 0 < (openScanGo scfg env targetMode scfg.sensors (clearedTimers s)).1.length :=
      List.length_pos.mpr (List.ne_nil_of_mem hsid2)
    have hpair : armBypassPair scfg
        { (openScanGo scfg env targetMode scfg.sensors (clearedTimers s)).2 with
          openList := (openScanGo scfg env targetMode scfg.sensors (clearedTimers s)).1
          stateList := [] }
        (openScanGo scfg env targetMode scfg.sensors (clearedTimers s)).1
        = (openScanGo scfg env targetMode scfg.sensors (clearedTimers s)).1.foldl
            (autoBypassStep scfg)
            ((openScanGo scfg env targetMode scfg.sensors (clearedTimers s)).2.runtimeBypass,
              []) := by
      unfold armBypassPair
      rw [if_pos ⟨hlen, ha⟩]
    obtain ⟨hm1, hm2⟩ := autoBypass_foldl_adds scfg sid sn hsn hbyp
      (openScanGo scfg env targetMode scfg.sensors (clearedTimers s)).1
      ((openScanGo scfg env targetMode scfg.sensors (clearedTimers s)).2.runtimeBypass, [])
      hsid2
    constructor
    · rw [hrbP, hpair]
      exact hm1
    · rw [hblP, hpair]
      exact hm2
  case ev =>
    have hs2ev : ({ (openScanGo scfg env targetMode scfg.sensors (clearedTimers s)).2 with
        openList := (openScanGo scfg env targetMode scfg.sensors (clearedTimers s)).1
        stateList := [] } : AState).events = evsScan ++ s.events := hevScan
    refine ⟨evsP ++ evsScan, ?_, eP, List.mem_append_left _ hePmem, hePty⟩
    rw [hevP, List.append_assoc]
    exact congrArg (fun l => evsP ++ l) hs2ev
  case ign =>
    intro t sid raw now hmemB
    obtain ⟨q1, q2, q3, q4, q5, q6, qe⟩ := bypassed_sensor_ignored scfg t sid raw now hmemB
    exact ⟨q1, q2, q4, qe⟩

/-- Witness for C3: one open bypassable and one open non-bypassable sensor,
auto-bypass on, blocking off. -/
theorem auto_bypass_arming_witness :
    (∀ sid ∈ openSensorIds scfgAutoBypass envAllOpen initialState.runtimeBypass
        ControlMode.armed_full,
      ∀ sn, lookupSensor scfgAutoBypass.sensors sid = some sn → sn.bypassable = true →
        sid ∈ (handleArm scfgAutoBypass envAllOpen initialState
            ControlMode.armed_full).runtimeBypass
        ∧ sid ∈ (handleArm scfgAutoBypass envAllOpen initialState
            ControlMode.armed_full).bypassedList)
    ∧ ((handleArm scfgAutoBypass envAllOpen initialState ControlMode.armed_full).mode
          = ControlMode.arming
        ∨ (handleArm scfgAutoBypass envAllOpen initialState ControlMode.armed_full).mode
          = ControlMode.armed_full)
    ∧ (∃ evs, (handleArm scfgAutoBypass envAllOpen initialState ControlMode.armed_full).events
          = evs ++ initialState.events
        ∧ ∃ e ∈ evs, e.etype = "arming_started")
    ∧ (∀ (t : AState) (sid : String) (raw : StateValue) (now : Nat),
        sid ∈ t.runtimeBypass →
          (handleSensorChange scfgAutoBypass t sid raw now).mode = t.mode
          ∧ (handleSensorChange scfgAutoBypass t sid raw now).alarmActive = t.alarmActive
          ∧ (handleSensorChange scfgAutoBypass t sid raw now).silentEvent = t.silentEvent
          ∧ ∃ evs, (handleSensorChange scfgAutoBypass t sid raw now).events = evs ++ t.events
              ∧ troubleOnly evs) := by
  have h1 : scfgAutoBypass.cfg.blockArmingIfOpen = false := by decide
  have h2 : scfgAutoBypass.cfg.autoBypassOpenOnArming = true := by decide
  exact auto_bypass_arming scfgAutoBypass envAllOpen initialState ControlMode.armed_full h1 h2

theorem letm_emitEvent (u : AState) (e : EventRecord) :
    (emitEvent u e).lastEventTimestamp = u.lastEventTimestamp := rfl

theorem letm_updateLastEvent (u : AState) (reason : String) (sensor : Option InternalSensor)
    (mode : Option ControlMode) :
    (updateLastEvent u reason sensor mode).lastEventTimestamp = u.lastEventTimestamp := rfl

theorem letm_setControlMode (scfg : SystemCfg) (u : AState) (m : ControlMode) :
    (setControlMode scfg u m).lastEventTimestamp = u.lastEventTimestamp := rfl

theorem letm_clearEntryTimers (u : AState) :
    (clearEntryTimers u).lastEventTimestamp = u.lastEventTimestamp := rfl

theorem letm_clearPreAlarmTimer (u : AState) :
    (clearPreAlarmTimer u).lastEventTimestamp = u.lastEventTimestamp := rfl

theorem letm_clearAlarmDurationTimer (u : AState) :
    (clearAlarmDurationTimer u).lastEventTimestamp = u.lastEventTimestamp := rfl

theorem letm_startEntryChirp (u : AState) (d : Nat) :
    (startEntryChirp u d).lastEventTimestamp = u.lastEventTimestamp := by
  simp only [startEntryChirp, stopEntryChirp]
  split <;> rfl

theorem letm_startLeaveChirp (u : AState) (d : Nat) :
    (startLeaveChirp u d).lastEventTimestamp = u.lastEventTimestamp := by
  simp only [startLeaveChirp, stopLeaveChirp]
  split <;> rfl

theorem letm_handleSilentEvent (scfg : SystemCfg) (u : AState) (sensor : InternalSensor)
    (reason : String) :
    (handleSilentEvent scfg u sensor reason).lastEventTimestamp = u.lastEventTimestamp := by
  simp only [handleSilentEvent, letm_emitEvent, letm_updateLastEvent]

theorem letm_startFullAlarm (scfg : SystemCfg) (u : AState) (sensor : InternalSensor)
    (reason : String) :
    (startFullAlarm scfg u sensor reason).lastEventTimestamp = u.lastEventTimestamp := by
  simp only [startFullAlarm]
  split <;> simp only [letm_emitEvent, letm_updateLastEvent, letm_setControlMode,
    letm_clearAlarmDurationTimer, letm_clearPreAlarmTimer]

theorem letm_startPreAlarm (scfg : SystemCfg) (u : AState) (sensor : InternalSensor)
    (reason : String) :
    (startPreAlarm scfg u sensor reason).lastEventTimestamp = u.lastEventTimestamp := by
  simp only [startPreAlarm, letm_emitEvent, letm_updateLastEvent, letm_setControlMode,
    letm_clearPreAlarmTimer]

theorem letm_triggerAlarm (scfg : SystemCfg) (u : AState) (sensor : InternalSensor)
    (reason : String) :
    (triggerAlarm scfg u sensor reason).lastEventTimestamp = u.lastEventTimestamp := by
  simp only [triggerAlarm]
  split <;> simp only [letm_startPreAlarm, letm_startFullAlarm, letm_clearEntryTimers]

theorem letm_startEntryDelay (scfg : SystemCfg) (u : AState) (sensor : InternalSensor) :
    (startEntryDelay scfg u sensor).lastEventTimestamp = u.lastEventTimestamp := by
  simp only [startEntryDelay]
  split <;> simp only [letm_triggerAlarm, letm_emitEvent, letm_updateLastEvent,
    letm_setControlMode, letm_clearEntryTimers, letm_startLeaveChirp, letm_startEntryChirp]

theorem letm_handleStateChangeTrigger (scfg : SystemCfg) (u : AState)
    (sensor : InternalSensor) (mode : ControlMode) :
    (handleStateChangeTrigger scfg u sensor mode).lastEventTimestamp
      = u.lastEventTimestamp := by
  simp only [handleStateChangeTrigger]
  split
  · simp only [letm_handleSilentEvent]
  · split
    · rfl
    · split
      · simp only [letm_startEntryDelay]
      · simp only [letm_triggerAlarm]

theorem letm_handleSensorTrigger (scfg : SystemCfg) (u : AState)
    (sensor : InternalSensor) (mode : ControlMode) :
    (handleSensorTrigger scfg u sensor mode).lastEventTimestamp = u.lastEventTimestamp := by
  simp only [handleSensorTrigger]
  split
  · simp only [letm_handleSilentEvent]
  · split
    · rfl
    · split
      · rfl
      · split
        · split
          · simp only [letm_triggerAlarm]
          · rfl
        · split
          · rfl
          · split
            · simp only [letm_startEntryDelay]
            · split
              · simp only [letm_triggerAlarm]
              · rfl

theorem letm_sensorDispatch (scfg : SystemCfg) (u : AState) (sensor : InternalSensor)
    (id : String) (v : Bool) :
    (sensorDispatch scfg u sensor id v).lastEventTimestamp = u.lastEventTimestamp := by
  simp only [sensorDispatch]
  split
  · rfl
  · split
    · simp only [letm_handleStateChangeTrigger]
    · split
      · rfl
      · split
        · rfl
        · split
          · rfl
          · simp only [letm_handleSensorTrigger]

theorem assocGet_assocSet_self {α : Type} (l : List (String × α)) (k : String) (v : α) :
    assocGet (assocSet l k v) k = some v := by
  induction l with
  | nil => simp [assocSet, assocGet]
  | cons p rest ih =>
    by_cases hp : p.1 = k
    · simp [assocSet, assocGet, hp]
    · by_cases hany : rest.any (fun q => q.1 = k)
      · simp only [assocSet, assocGet, List.any_cons, hp, hany] at ih ⊢
        simpa [hp] using ih
      · simp only [assocSet, assocGet, List.any_cons, hp, hany] at ih ⊢
        simpa [hp] using ih

theorem handleSensorChange_letm (scfg : SystemCfg) (s : AState) (id : String)
    (raw : StateValue) (now : Nat) (sensor : InternalSensor) (v : Bool)
    (hl : lookupSensor scfg.sensors id = some sensor)
    (hnd : ¬(0 < effectiveDebounce scfg sensor
      ∧ (now : Int) - (((assocGet s.lastEventTimestamp id).getD 0 : Nat) : Int)
        < effectiveDebounce scfg sensor))
    (hn : normalizeSensorValue raw sensor = some v) :
    (handleSensorChange scfg s id raw now).lastEventTimestamp
      = assocSet s.lastEventTimestamp id now := by
  have h2 := scanPreserves_removeTrouble scfg
    { s with lastEventTimestamp := assocSet s.lastEventTimestamp id now } id
  unfold handleSensorChange
  rw [hl]
  dsimp only
  split
  case isTrue hcond => exact absurd hcond hnd
  case isFalse hcond =>
    rw [hn]
    dsimp only
    split
    · split
      · exact h2.letm.trans rfl
      · split
        · exact h2.letm.trans rfl
        · exact (letm_sensorDispatch scfg _ sensor id v).trans (h2.letm.trans rfl)
    · exact (letm_sensorDispatch scfg _ sensor id v).trans (h2.letm.trans rfl)

theorem handleSensorChange_debounce_drop (scfg : SystemCfg) (s : AState) (id : String)
    (raw : StateValue) (now : Nat) (sensor : InternalSensor)
    (hl : lookupSensor scfg.sensors id = some sensor)
    (hd : 0 < effectiveDebounce scfg sensor)
    (hwin : (now : Int) - (((assocGet s.lastEventTimestamp id).getD 0 : Nat) : Int)
      < effectiveDebounce scfg sensor) :
    handleSensorChange scfg s id raw now = s := by
  unfold handleSensorChange
  rw [hl]
  dsimp only
  split
  case isTrue hcond => rfl
  case isFalse hcond => exact absurd ⟨hd, hwin⟩ hcond

/-- C5: for a sensor with a positive effective debounce, a second raw update
arriving within the debounce window after a processed first update is dropped
entirely: the second call returns the state of the first call unchanged (no
trouble change, no last-value update, no timestamp update, no trigger). -/
theorem debounce_drops_second_update (scfg : SystemCfg) (s : AState) (id : String)
    (sensor : InternalSensor) (raw1 raw2 : StateValue) (v1 : Bool) (t0 t1 : Nat)
    (hl : lookupSensor scfg.sensors id = some sensor)
    (hd : 0 < effectiveDebounce scfg sensor)
    (hfresh : assocGet s.lastEventTimestamp id = none)
    (ht0 : effectiveDebounce scfg sensor ≤ (t0 : Int))
    (hn1 : normalizeSensorValue raw1 sensor = some v1)
    (hwin : (t1 : Int) - (t0 : Int) < effectiveDebounce scfg sensor) :
    handleSensorChange scfg (handleSensorChange scfg s id raw1 t0) id raw2 t1
      = handleSensorChange scfg s id raw1 t0 := by
  have hnd : ¬(0 < effectiveDebounce scfg sensor
      ∧ (t0 : Int) - (((assocGet s.lastEventTimestamp id).getD 0 : Nat) : Int)
        < effectiveDebounce scfg sensor) := by
    rintro ⟨-, hlt⟩
    rw [hfresh] at hlt
    simp at hlt
    omega
  have hts := handleSensorChange_letm scfg s id raw1 t0 sensor v1 hl hnd hn1
  apply handleSensorChange_debounce_drop scfg _ id raw2 t1 sensor hl hd
  rw [hts, assocGet_assocSet_self]
  simpa using hwin

/-- Witness for C5: the 500 ms debounced sensor, updates at t=1000 and
t=1200 ms. -/
theorem debounce_drops_second_update_witness :
    handleSensorChange scfgDebounce
        (handleSensorChange scfgDebounce initialState "ext.0.motion1" (StateValue.bool true)
          1000)
        "ext.0.motion1" (StateValue.bool false) 1200
      = handleSensorChange scfgDebounce initialState "ext.0.motion1" (StateValue.bool true)
          1000 := by
  have hl : lookupSensor scfgDebounce.sensors "ext.0.motion1" = some sensorS4 := by decide
  have hd : 0 < effectiveDebounce scfgDebounce sensorS4 := by decide
  have hfresh : assocGet initialState.lastEventTimestamp "ext.0.motion1" = none := by decide
  have ht0 : effectiveDebounce scfgDebounce sensorS4 ≤ ((1000 : Nat) : Int) := by decide
  have hn1 : normalizeSensorValue (StateValue.bool true) sensorS4 = some true := by decide
  have hwin : ((1200 : Nat) : Int) - ((1000 : Nat) : Int)
      < effectiveDebounce scfgDebounce sensorS4 := by decide
  exact debounce_drops_second_update scfgDebounce initialState "ext.0.motion1" sensorS4
    (StateValue.bool true) (StateValue.bool false) true 1000 1200 hl hd hfresh ht0 hn1 hwin
